import Mathlib

/-!
# Verification of the code-agent core (orchestrator + sandboxed tool executor)

Shallow embedding of `code_agent/tools.py` and `code_agent/agent.py`.

Modelling conventions:
* Python strings are embedded as `List Char` (`Text`); `len`, slicing and
  `startswith` become list operations on characters.
* Filesystem paths are embedded as lists of name components (`FsPath`); the
  textual rendering used by Python's `str(Path)` is recovered by `pathStr`.
  `Path.resolve()` is modelled as pure `..`/`.` normalisation (the model
  filesystem has no symbolic links).
* The filesystem is an explicit state: a finite map from absolute paths to
  file contents plus a set of explicitly created directories.
* The external libraries `re` (regex), `fnmatch`-style globbing inside
  `Path.rglob`, and `subprocess.run` are modelled as an `Oracle` of opaque
  functions supplied by the environment; theorems quantify over the oracle.
* Machine integers from tool inputs (`start_line`, `end_line`, exit codes)
  are embedded as `Int`.
-/

set_option maxRecDepth 4000

deriving instance DecidableEq for Except

abbrev Text := List Char

abbrev FsPath := List Text

/-- `"\n".join(parts)`-style joining with a separator. -/
def joinWith (sep : Text) : List Text → Text
  | [] => []
  | [x] => x
  | x :: y :: rest => x ++ sep ++ joinWith sep (y :: rest)

/-- Rendering of a relative path (list of components) back to the string the
Python code interpolates into messages, components joined by `/`. -/
def renderRel (p : FsPath) : Text :=
  joinWith "/".data p

/-- `str(Path(...))` for an absolute path: leading slash, components joined
by `/`. -/
def pathStr (p : FsPath) : Text :=
  "/".data ++ joinWith "/".data p

/-- Decimal rendering of a natural number as embedded text. -/
def natText (n : Nat) : Text :=
  (toString n).data

/-- Decimal rendering of an integer as embedded text (Python `f"{i}"`). -/
def intText (i : Int) : Text :=
  (toString i).data

/-- One normalisation step of path resolution: `.` and empty components are
dropped, `..` removes the last component (staying at the root if there is
none), anything else is appended. -/
def normStep (acc : FsPath) (comp : Text) : FsPath :=
  if comp = ".".data ∨ comp = [] then acc
  else if comp = "..".data then acc.dropLast
  else acc ++ [comp]

/-- `(base / relative).resolve()`: join the relative components onto the
canonical base and normalise (no symlinks in the model). -/
def normJoin (base rel : FsPath) : FsPath :=
  rel.foldl normStep base

/-- `_resolve_safe_path` from `tools.py`: resolve the relative path against
the repository root and reject it when the *string rendering* of the result
does not start with the string rendering of the root (this is exactly the
check `str(target).startswith(str(base))` performed by the source). -/
def resolveSafePath (repoPath : FsPath) (relativePath : FsPath) : Except Text FsPath :=
  let base := repoPath
  let target := normJoin base relativePath
  if (pathStr base).isPrefixOf (pathStr target) then
    Except.ok target
  else
    Except.error ("Path traversal blocked: '".data ++ renderRel relativePath ++
      "' resolves outside the repo.".data)

/-- The spec's notion of containment: the canonical target is equal to or
nested under the canonical root, i.e. the root's components are a prefix of
the target's components. -/
def isDescendant (root target : FsPath) : Bool :=
  root.isPrefixOf target

/-! ## Python string primitives used by the tools -/

/-- Python whitespace characters recognised by `str.strip()` (ASCII part). -/
def isPySpace (c : Char) : Bool :=
  c = ' ' || c = '\t' || c = '\n' || c = '\x0d' || c = Char.ofNat 11 || c = Char.ofNat 12

/-- `str.strip()`: drop leading and trailing whitespace. -/
def pyStrip (s : Text) : Text :=
  ((s.dropWhile isPySpace).reverse.dropWhile isPySpace).reverse

/-- `str.rstrip()`: drop trailing whitespace. -/
def pyRstrip (s : Text) : Text :=
  (s.reverse.dropWhile isPySpace).reverse

/-- `str.lower()` on the ASCII range (commands and blocked prefixes in the
source are ASCII). -/
def asciiLowerChar (c : Char) : Char :=
  if 'A' ≤ c ∧ c ≤ 'Z' then Char.ofNat (c.toNat + 32) else c

/-- `str.lower()` lifted to text. -/
def asciiLower (s : Text) : Text :=
  s.map asciiLowerChar

/-- `str.splitlines()` restricted to the `\n`, `\r\n` and `\r` line
boundaries (the only ones the repository's text files can contain). -/
def pySplitlines : Text → List Text
  | [] => []
  | '\x0d' :: '\n' :: rest => [] :: pySplitlines rest
  | '\n' :: rest => [] :: pySplitlines rest
  | '\x0d' :: rest => [] :: pySplitlines rest
  | c :: rest =>
    match pySplitlines rest with
    | [] => [[c]]
    | l :: ls => (c :: l) :: ls

/-- `str.count(sub)` for a nonempty needle: non-overlapping occurrences,
scanning left to right; after a match the next `len(sub) - 1` characters are
skipped (`skip` counts how many scan positions remain inside the previous
match). -/
def pyCountAux (pat : Text) : Text → Nat → Nat
  | [], _ => 0
  | _ :: rest, Nat.succ k => pyCountAux pat rest k
  | c :: rest, 0 =>
    if pat.isPrefixOf (c :: rest) then
      1 + pyCountAux pat rest (pat.length - 1)
    else
      pyCountAux pat rest 0

/-- Python `content.count(old_text)`: for the empty needle Python returns
`len(content) + 1`; otherwise non-overlapping occurrence count. -/
def pyCount (s pat : Text) : Nat :=
  if pat = [] then s.length + 1 else pyCountAux pat s 0

/-- Python `content.replace(old, new, 1)`: replace the first occurrence of
`pat` (the empty needle inserts `new` in front, as in Python). -/
def pyReplaceFirst (pat new : Text) : Text → Text
  | [] => if pat = [] then new else []
  | c :: rest =>
    if pat = [] then new ++ c :: rest
    else if pat.isPrefixOf (c :: rest) then new ++ (c :: rest).drop pat.length
    else c :: pyReplaceFirst pat new rest

/-- Lexicographic comparison of texts by character code, the order Python
uses when sorting path names. -/
def textLe : Text → Text → Bool
  | [], _ => true
  | _ :: _, [] => false
  | a :: as, b :: bs => if a = b then textLe as bs else decide (a < b)

/-- Insertion into a list sorted by the boolean comparison `le`. -/
def insertLeBy (le : α → α → Bool) (x : α) : List α → List α
  | [] => [x]
  | y :: ys =>
    if le x y then x :: y :: ys
    else y :: insertLeBy le x ys

/-- Insertion sort by a boolean comparison, modelling Python's `sorted`. -/
def sortLeBy (le : α → α → Bool) : List α → List α
  | [] => []
  | x :: xs => insertLeBy le x (sortLeBy le xs)

/-- Python's `sorted` by a text key. -/
def sortByText (keyOf : α → Text) : List α → List α :=
  sortLeBy (fun a b => textLe (keyOf a) (keyOf b))

/-! ## Filesystem model

The repository working tree: a finite association list from absolute paths
to file contents, plus the directories explicitly created by
`mkdir(parents=True)`.  A path is a directory when it is the root, was
explicitly created, or lies strictly above an existing entry. -/

structure FS where
  files : List (FsPath × Text)
  dirs : List FsPath
deriving DecidableEq

/-- Association-list lookup of a file's content. -/
def lookupFile : List (FsPath × Text) → FsPath → Option Text
  | [], _ => none
  | e :: rest, p => if e.1 = p then some e.2 else lookupFile rest p

/-- `Path.is_file()`. -/
def FS.isFile (fs : FS) (p : FsPath) : Bool :=
  (lookupFile fs.files p).isSome

/-- `Path.is_dir()`: the root, an explicitly created directory, an ancestor
of a created directory, or a strict ancestor of an existing file. -/
def FS.isDir (fs : FS) (p : FsPath) : Bool :=
  p = [] || fs.dirs.any (fun d => p.isPrefixOf d) ||
    fs.files.any (fun e => p.isPrefixOf e.1 && p ≠ e.1)

/-- `Path.exists()`. -/
def FS.existsPath (fs : FS) (p : FsPath) : Bool :=
  fs.isFile p || fs.isDir p

/-- Replace or add a binding in the association list. -/
def setFileEntry (p : FsPath) (c : Text) : List (FsPath × Text) → List (FsPath × Text)
  | [] => [(p, c)]
  | e :: rest => if e.1 = p then (p, c) :: rest else e :: setFileEntry p c rest

/-- `Path.write_text(content)`. -/
def FS.writeFile (fs : FS) (p : FsPath) (c : Text) : FS :=
  { fs with files := setFileEntry p c fs.files }

/-- `Path.unlink()`. -/
def FS.removeFile (fs : FS) (p : FsPath) : FS :=
  { fs with files := fs.files.filter (fun e => e.1 ≠ p) }

/-- The strict ancestors of a path (excluding the path itself; includes the
root `[]`). -/
def strictAncestors (p : FsPath) : List FsPath :=
  (List.range p.length).map (fun i => p.take i)

/-- `target.parent.mkdir(parents=True, exist_ok=True)`: fails when a strict
ancestor of `p` is an existing regular file (Python raises, which the
dispatcher converts into an execution error); otherwise records the parent
directory. -/
def FS.mkdirParents (fs : FS) (p : FsPath) : Except Text FS :=
  if strictAncestors p |>.any (fun a => fs.isFile a) then
    Except.error ("[Errno 17] File exists: '".data ++ renderRel p.dropLast ++ "'".data)
  else
    Except.ok { fs with dirs := fs.dirs ++ [p.dropLast] }

/-- Names of the direct children of directory `p` (derived from both files
and created directories), deduplicated. -/
def FS.childNames (fs : FS) (p : FsPath) : List Text :=
  ((fs.files.map (fun e => e.1) ++ fs.dirs).filterMap
    (fun q => if p.isPrefixOf q ∧ q.length > p.length then q.get? p.length else none)).dedup

/-! ## Tool executor -/

/-- The structured input of a tool call.  The Bedrock tool schemas make the
relevant keys required per tool, so the model keeps every field total; path
strings are embedded as component lists. -/
structure ToolInput where
  path : FsPath := []
  content : Text := []
  old_text : Text := []
  new_text : Text := []
  old_path : FsPath := []
  new_path : FsPath := []
  start_line : Int := 0
  end_line : Int := 0
  command : Text := []
  pattern : Text := []
  file_pattern : Text := []
  max_depth : Option Int := none
deriving DecidableEq

/-- Result of `subprocess.run`: normal completion with captured streams and
exit code, a `TimeoutExpired`, or any other exception carrying a message. -/
inductive SubprocOutcome where
  | completed (stdout stderr : Text) (returncode : Int)
  | timeout
  | failed (msg : Text)
deriving DecidableEq

/-- The external libraries the executor calls into: `re.compile`/`search`
(compilation returns a per-line matcher or an error message), the glob
matching inside `Path.rglob`, and `subprocess.run` (which may also change
the working tree). -/
structure Oracle where
  regex : Text → Except Text (Text → Bool)
  rglobMatch : Text → Text → Bool
  subproc : FS → Text → SubprocOutcome × FS

/-- What a Python tool handler does: return a success string, return an
error string, raise `ValueError` (from `_resolve_safe_path`), or raise any
other exception — together with the filesystem state at that point. -/
inductive HandlerOut where
  | retOk (t : Text) (fs : FS)
  | retErr (t : Text) (fs : FS)
  | raiseVal (msg : Text) (fs : FS)
  | raiseOther (msg : Text) (fs : FS)
deriving DecidableEq

/-- `IGNORED_DIRS` from `tools.py`. -/
def IGNORED_DIRS : List Text :=
  [".git".data, "__pycache__".data, "node_modules".data, ".venv".data, "venv".data,
   ".next".data, ".cache".data, "dist".data, "build".data]

/-- `name.startswith(".")`. -/
def startsWithDot (n : Text) : Bool :=
  ".".data.isPrefixOf n

/-- `_exec_list_directory`. -/
def execListDirectory (_o : Oracle) (inp : ToolInput) (root : FsPath) (fs : FS) : HandlerOut :=
  match resolveSafePath root inp.path with
  | Except.error m => HandlerOut.raiseVal m fs
  | Except.ok target =>
    if fs.existsPath target = false then
      HandlerOut.retErr ("Error: Directory '".data ++ renderRel inp.path ++ "' does not exist.".data) fs
    else if fs.isDir target = false then
      HandlerOut.retErr ("Error: '".data ++ renderRel inp.path ++ "' is not a directory.".data) fs
    else
      let entries := sortByText id (fs.childNames target)
      let lines := entries.filterMap (fun n =>
        if n ∈ IGNORED_DIRS ∨ startsWithDot n then none
        else some ((if fs.isDir (target ++ [n]) then "[DIR] ".data else "[FILE]".data) ++
          " ".data ++ n))
      if lines = [] then HandlerOut.retOk "(empty directory)".data fs
      else HandlerOut.retOk (joinWith "\n".data lines) fs

/-- The `(entry, entry.is_dir())` pairs `_build_tree` iterates over, already
filtered and sorted by the key `(not is_dir, name)` (directories first). -/
def treeEntries (fs : FS) (dir : FsPath) : List (Text × Bool) :=
  sortLeBy (fun a b => if a.2 = b.2 then textLe a.1 b.1 else a.2)
    ((fs.childNames dir).filterMap (fun n =>
      if n ∈ IGNORED_DIRS ∨ startsWithDot n then none
      else some (n, fs.isDir (dir ++ [n]))))

mutual

/-- `_build_tree`: the fuel is `max_depth - current_depth`; the recursion
stops when it reaches zero (`current_depth >= max_depth`). -/
def buildTree (fs : FS) : Nat → FsPath → Text → List Text
  | 0, _, _ => []
  | Nat.succ fuel, dir, pfx =>
    let entries := treeEntries fs dir
    buildTreeRows fs fuel dir pfx entries.length 0 entries
termination_by fuel _ _ => (fuel, 0)

/-- The `for i, entry in enumerate(entries)` loop body of `_build_tree`. -/
def buildTreeRows (fs : FS) (fuel : Nat) (dir : FsPath) (pfx : Text) (total i : Nat) :
    List (Text × Bool) → List Text
  | [] => []
  | e :: rest =>
    let isLast := i = total - 1
    let connector := if isLast then "└── ".data else "├── ".data
    let line := pfx ++ connector ++ e.1 ++ (if e.2 then "/".data else [])
    let nested :=
      if e.2 then
        buildTree fs fuel (dir ++ [e.1]) (pfx ++ (if isLast then "    ".data else "│   ".data))
      else []
    line :: (nested ++ buildTreeRows fs fuel dir pfx total (i + 1) rest)
termination_by l => (fuel, l.length + 1)

end

/-- `_exec_list_directory_tree`. -/
def execListDirectoryTree (_o : Oracle) (inp : ToolInput) (root : FsPath) (fs : FS) : HandlerOut :=
  match resolveSafePath root inp.path with
  | Except.error m => HandlerOut.raiseVal m fs
  | Except.ok target =>
    if fs.existsPath target = false then
      HandlerOut.retErr ("Error: Directory '".data ++ renderRel inp.path ++ "' does not exist.".data) fs
    else if fs.isDir target = false then
      HandlerOut.retErr ("Error: '".data ++ renderRel inp.path ++ "' is not a directory.".data) fs
    else
      let maxDepth := inp.max_depth.getD 4
      let lines := buildTree fs maxDepth.toNat target []
      if lines = [] then HandlerOut.retOk "(empty directory)".data fs
      else
        let lines :=
          if lines.length > 500 then
            let capped := lines.take 500
            capped ++ ["... (truncated, ".data ++ natText capped.length ++ "+ entries)".data]
          else lines
        HandlerOut.retOk (joinWith "\n".data lines) fs

/-- `_exec_search_in_files`.  The source appends the cap marker and returns
as soon as the 100th match is recorded; observably this equals truncating
the full match list at 100 and appending the marker. -/
def execSearchInFiles (o : Oracle) (inp : ToolInput) (root : FsPath) (fs : FS) : HandlerOut :=
  match resolveSafePath root inp.path with
  | Except.error m => HandlerOut.raiseVal m fs
  | Except.ok target =>
    if fs.existsPath target = false then
      HandlerOut.retErr ("Error: Path '".data ++ renderRel inp.path ++ "' does not exist.".data) fs
    else
      match o.regex inp.pattern with
      | Except.error m =>
        HandlerOut.retErr ("Error: Invalid regex pattern: ".data ++ m) fs
      | Except.ok matcher =>
        let filesToSearch : List FsPath :=
          if fs.isFile target then [target]
          else
            sortByText pathStr ((fs.files.map (fun e => e.1)).filter (fun q =>
              target.isPrefixOf q && q ≠ target &&
                o.rglobMatch (q.getLastD [])
                  (if inp.file_pattern = [] then "*".data else inp.file_pattern)))
        let searched := filesToSearch.filter (fun q =>
          ((q.drop root.length).any (fun part => part ∈ IGNORED_DIRS || startsWithDot part)) = false)
        let found := searched.flatMap (fun q =>
          let content := (lookupFile fs.files q).getD []
          ((pySplitlines content).enumFrom 1).filterMap (fun e =>
            if matcher e.2 then
              some (renderRel (q.drop root.length) ++ ":".data ++ natText e.1 ++ ": ".data ++
                pyRstrip e.2)
            else none))
        if found.length ≥ 100 then
          HandlerOut.retOk
            (joinWith "\n".data (found.take 100 ++ ["... (search capped at 100 results)".data])) fs
        else if found = [] then
          HandlerOut.retOk ("No matches found for pattern '".data ++ inp.pattern ++ "'.".data) fs
        else
          HandlerOut.retOk (joinWith "\n".data found) fs

/-- `_exec_read_file`. -/
def execReadFile (_o : Oracle) (inp : ToolInput) (root : FsPath) (fs : FS) : HandlerOut :=
  match resolveSafePath root inp.path with
  | Except.error m => HandlerOut.raiseVal m fs
  | Except.ok target =>
    if fs.existsPath target = false then
      HandlerOut.retErr ("Error: File '".data ++ renderRel inp.path ++ "' does not exist.".data) fs
    else if fs.isFile target = false then
      HandlerOut.retErr ("Error: '".data ++ renderRel inp.path ++ "' is not a file.".data) fs
    else
      let content := (lookupFile fs.files target).getD []
      if content = [] then HandlerOut.retOk "(file is empty)".data fs
      else HandlerOut.retOk content fs

/-- `_exec_read_file_lines`. -/
def execReadFileLines (_o : Oracle) (inp : ToolInput) (root : FsPath) (fs : FS) : HandlerOut :=
  match resolveSafePath root inp.path with
  | Except.error m => HandlerOut.raiseVal m fs
  | Except.ok target =>
    if fs.existsPath target = false then
      HandlerOut.retErr ("Error: File '".data ++ renderRel inp.path ++ "' does not exist.".data) fs
    else if fs.isFile target = false then
      HandlerOut.retErr ("Error: '".data ++ renderRel inp.path ++ "' is not a file.".data) fs
    else
      let start := inp.start_line
      let endL := inp.end_line
      if start < 1 then
        HandlerOut.retErr "Error: start_line must be >= 1.".data fs
      else if endL < start then
        HandlerOut.retErr "Error: end_line must be >= start_line.".data fs
      else
        let lines := pySplitlines ((lookupFile fs.files target).getD [])
        if start > (lines.length : Int) then
          HandlerOut.retErr ("Error: File only has ".data ++ natText lines.length ++
            " lines, but start_line is ".data ++ intText start ++ ".".data) fs
        else
          let endC := min endL (lines.length : Int)
          let selected := (lines.drop (start.toNat - 1)).take (endC.toNat - (start.toNat - 1))
          let numbered := (selected.enumFrom start.toNat).map
            (fun e => natText e.1 ++ ": ".data ++ e.2)
          HandlerOut.retOk (joinWith "\n".data numbered) fs

/-- `_exec_write_file`. -/
def execWriteFile (_o : Oracle) (inp : ToolInput) (root : FsPath) (fs : FS) : HandlerOut :=
  match resolveSafePath root inp.path with
  | Except.error m => HandlerOut.raiseVal m fs
  | Except.ok target =>
    if fs.existsPath target = false then
      HandlerOut.retErr ("Error: File '".data ++ renderRel inp.path ++ "' does not exist. ".data ++
        "Use create_file to create new files.".data) fs
    else if fs.isFile target = false then
      HandlerOut.retErr ("Error: '".data ++ renderRel inp.path ++ "' is not a file.".data) fs
    else
      HandlerOut.retOk ("Successfully wrote to ".data ++ renderRel inp.path)
        (fs.writeFile target inp.content)

/-- `_exec_create_file`. -/
def execCreateFile (_o : Oracle) (inp : ToolInput) (root : FsPath) (fs : FS) : HandlerOut :=
  match resolveSafePath root inp.path with
  | Except.error m => HandlerOut.raiseVal m fs
  | Except.ok target =>
    if fs.existsPath target then
      HandlerOut.retErr ("Error: '".data ++ renderRel inp.path ++ "' already exists. ".data ++
        "Use write_file to overwrite existing files.".data) fs
    else
      match fs.mkdirParents target with
      | Except.error m => HandlerOut.raiseOther m fs
      | Except.ok fs1 =>
        HandlerOut.retOk ("Successfully created ".data ++ renderRel inp.path)
          (fs1.writeFile target inp.content)

/-- `_exec_patch_file`. -/
def execPatchFile (_o : Oracle) (inp : ToolInput) (root : FsPath) (fs : FS) : HandlerOut :=
  match resolveSafePath root inp.path with
  | Except.error m => HandlerOut.raiseVal m fs
  | Except.ok target =>
    if fs.existsPath target = false then
      HandlerOut.retErr ("Error: File '".data ++ renderRel inp.path ++ "' does not exist.".data) fs
    else if fs.isFile target = false then
      HandlerOut.retErr ("Error: '".data ++ renderRel inp.path ++ "' is not a file.".data) fs
    else
      let content := (lookupFile fs.files target).getD []
      let count := pyCount content inp.old_text
      if count = 0 then
        HandlerOut.retErr ("Error: old_text not found in '".data ++ renderRel inp.path ++
          "'. Make sure the text matches exactly, including whitespace and indentation.".data) fs
      else if count > 1 then
        HandlerOut.retErr ("Error: old_text found ".data ++ natText count ++ " times in '".data ++
          renderRel inp.path ++
          "'. Please provide a more unique snippet to avoid ambiguous replacements.".data) fs
      else
        HandlerOut.retOk ("Successfully patched ".data ++ renderRel inp.path)
          (fs.writeFile target (pyReplaceFirst inp.old_text inp.new_text content))

/-- `_exec_delete_file`. -/
def execDeleteFile (_o : Oracle) (inp : ToolInput) (root : FsPath) (fs : FS) : HandlerOut :=
  match resolveSafePath root inp.path with
  | Except.error m => HandlerOut.raiseVal m fs
  | Except.ok target =>
    if fs.existsPath target = false then
      HandlerOut.retErr ("Error: File '".data ++ renderRel inp.path ++ "' does not exist.".data) fs
    else if fs.isFile target = false then
      HandlerOut.retErr ("Error: '".data ++ renderRel inp.path ++
        "' is not a file. Only files can be deleted.".data) fs
    else
      HandlerOut.retOk ("Successfully deleted ".data ++ renderRel inp.path) (fs.removeFile target)

/-- `_exec_rename_file`. -/
def execRenameFile (_o : Oracle) (inp : ToolInput) (root : FsPath) (fs : FS) : HandlerOut :=
  match resolveSafePath root inp.old_path with
  | Except.error m => HandlerOut.raiseVal m fs
  | Except.ok oldTarget =>
    match resolveSafePath root inp.new_path with
    | Except.error m => HandlerOut.raiseVal m fs
    | Except.ok newTarget =>
      if fs.existsPath oldTarget = false then
        HandlerOut.retErr ("Error: '".data ++ renderRel inp.old_path ++ "' does not exist.".data) fs
      else if fs.isFile oldTarget = false then
        HandlerOut.retErr ("Error: '".data ++ renderRel inp.old_path ++ "' is not a file.".data) fs
      else if fs.existsPath newTarget then
        HandlerOut.retErr ("Error: '".data ++ renderRel inp.new_path ++ "' already exists.".data) fs
      else
        match fs.mkdirParents newTarget with
        | Except.error m => HandlerOut.raiseOther m fs
        | Except.ok fs1 =>
          HandlerOut.retOk ("Successfully renamed ".data ++ renderRel inp.old_path ++
            " → ".data ++ renderRel inp.new_path)
            ((fs1.writeFile newTarget ((lookupFile fs.files oldTarget).getD [])).removeFile
              oldTarget)

/-- `_BLOCKED_COMMANDS` from `tools.py`. -/
def BLOCKED_COMMANDS : List Text :=
  ["rm -rf /".data, "rm -rf ~".data, "git push".data, "git reset --hard".data]

/-- The blocked-command test of `_exec_run_command`: some deny-listed text
is a prefix of the lowercased, stripped command. -/
def isBlockedCommand (command : Text) : Bool :=
  BLOCKED_COMMANDS.any (fun b => b.isPrefixOf (pyStrip (asciiLower command)))

/-- The combined output `"\n\n".join(output_parts)` of `_exec_run_command`
before the length cap is applied. -/
def combinedOutput (stdout stderr : Text) (returncode : Int) : Text :=
  let parts :=
    (if stdout ≠ [] then ["STDOUT:\n".data ++ stdout] else []) ++
    (if stderr ≠ [] then ["STDERR:\n".data ++ stderr] else []) ++
    ["EXIT CODE: ".data ++ intText returncode]
  joinWith "\n\n".data parts

/-- The truncation marker appended when the output cap is exceeded. -/
def TRUNCATION_MARKER : Text :=
  "\n... (output truncated at 10000 chars)".data

/-- The output formatting and 10000-character cap of `_exec_run_command`. -/
def formatCommandOutput (stdout stderr : Text) (returncode : Int) : Text :=
  let output := combinedOutput stdout stderr returncode
  if output.length > 10000 then output.take 10000 ++ TRUNCATION_MARKER
  else output

/-- `_exec_run_command`. -/
def execRunCommand (o : Oracle) (inp : ToolInput) (_root : FsPath) (fs : FS) : HandlerOut :=
  let command := inp.command
  if isBlockedCommand command then
    HandlerOut.retErr ("Error: Command '".data ++ command ++ "' is blocked for safety.".data) fs
  else
    match o.subproc fs command with
    | (SubprocOutcome.completed stdout stderr returncode, fs1) =>
      HandlerOut.retOk (formatCommandOutput stdout stderr returncode) fs1
    | (SubprocOutcome.timeout, fs1) =>
      HandlerOut.retErr "Error: Command timed out after 60 seconds.".data fs1
    | (SubprocOutcome.failed msg, fs1) =>
      HandlerOut.retErr ("Error running command: ".data ++ msg) fs1

/-- `_WRITE_TOOLS` from `tools.py`: the write-class tool identifiers. -/
def WRITE_TOOLS : List Text :=
  ["write_file".data, "create_file".data, "patch_file".data, "delete_file".data,
   "rename_file".data]

/-- The dispatcher dictionary of `execute_tool`, as (name, handler) pairs. -/
def DISPATCHER : List (Text × (Oracle → ToolInput → FsPath → FS → HandlerOut)) :=
  [("list_directory".data, execListDirectory),
   ("list_directory_tree".data, execListDirectoryTree),
   ("search_in_files".data, execSearchInFiles),
   ("read_file".data, execReadFile),
   ("read_file_lines".data, execReadFileLines),
   ("write_file".data, execWriteFile),
   ("create_file".data, execCreateFile),
   ("patch_file".data, execPatchFile),
   ("delete_file".data, execDeleteFile),
   ("rename_file".data, execRenameFile),
   ("run_command".data, execRunCommand)]

/-- Dictionary lookup (`dispatcher.get(tool_name)`). -/
def lookupHandler (l : List (Text × (Oracle → ToolInput → FsPath → FS → HandlerOut)))
    (n : Text) : Option (Oracle → ToolInput → FsPath → FS → HandlerOut) :=
  match l with
  | [] => none
  | e :: rest => if e.1 = n then some e.2 else lookupHandler rest n

/-- `dispatcher.get(tool_name)` on the fixed dispatcher table. -/
def handlerFor (toolName : Text) : Option (Oracle → ToolInput → FsPath → FS → HandlerOut) :=
  lookupHandler DISPATCHER toolName

/-- The observable result of `execute_tool`: the returned text, whether it
is an error result (an instrumentation tag marking which kind of return
statement produced the text), and the filesystem afterwards. -/
structure ExecResult where
  text : Text
  isErr : Bool
  fs : FS
deriving DecidableEq

/-- `execute_tool` from `tools.py`: the conversion of a handler outcome
into result text — raised `ValueError`s become `Error: ...` text and any
other exception becomes `Error executing <tool>: ...` text. -/
def renderHandlerOut (toolName : Text) (h : HandlerOut) : ExecResult :=
  match h with
  | HandlerOut.retOk t fs1 => ExecResult.mk t false fs1
  | HandlerOut.retErr t fs1 => ExecResult.mk t true fs1
  | HandlerOut.raiseVal m fs1 => ExecResult.mk ("Error: ".data ++ m) true fs1
  | HandlerOut.raiseOther m fs1 =>
    ExecResult.mk ("Error executing ".data ++ toolName ++ ": ".data ++ m) true fs1

/-- `execute_tool` from `tools.py`, continued: dispatch and run. -/
def executeTool (o : Oracle) (toolName : Text) (inp : ToolInput) (root : FsPath) (fs : FS) :
    ExecResult :=
  match handlerFor toolName with
  | none =>
    ExecResult.mk ("Error: Unknown tool '".data ++ toolName ++ "'.".data) true fs
  | some handler => renderHandlerOut toolName (handler o inp root fs)

/-! ## Conversation orchestrator (`agent.py`) -/

/-- A content block of a Bedrock Converse message. -/
inductive ContentBlock where
  | text (s : Text)
  | toolUse (id : Text) (name : Text) (input : ToolInput)
  | toolResult (id : Text) (t : Text)
deriving DecidableEq

/-- A conversation message. -/
structure Message where
  role : Text
  content : List ContentBlock
deriving DecidableEq

/-- An endpoint reply: `response["output"]["message"]` and
`response["stopReason"]`. -/
structure Reply where
  message : Message
  stopReason : Text
deriving DecidableEq

/-- A scripted model endpoint: a function from the conversation so far to
the next assistant reply.  Transport failures are out of scope (they would
propagate; the claims quantify over endpoints that do reply). -/
abbrev Endpoint := List Message → Reply

/-- `MAX_AGENT_ITERATIONS` from `config.py`. -/
def MAX_AGENT_ITERATIONS : Nat := 30

/-- The exhaustion summary returned when the safety cap is hit. -/
def EXHAUSTION_SUMMARY : Text :=
  ("Agent reached the maximum number of iterations. ".data ++
   "Some changes may be incomplete.".data)

/-- The placeholder summary when the final assistant reply has no text. -/
def NO_SUMMARY_PLACEHOLDER : Text :=
  "(no summary provided)".data

/-- `_extract_text`: all `text` blocks of a message, in order. -/
def textBlocksOf (m : Message) : List Text :=
  m.content.filterMap (fun b =>
    match b with
    | ContentBlock.text s => some s
    | _ => none)

/-- `_extract_text`: newline-join of the text blocks, or the fixed
placeholder when there are none. -/
def extractText (m : Message) : Text :=
  let parts := textBlocksOf m
  if parts = [] then NO_SUMMARY_PLACEHOLDER else joinWith "\n".data parts

/-- The change-tracking branch of `_process_tool_calls`: which entry (if
any) is appended to `files_changed` for a given tool call, given that the
result text did not start with `"Error"`. -/
def changeEntry (toolName : Text) (inp : ToolInput) : List Text :=
  if toolName = "write_file".data ∨ toolName = "create_file".data ∨
      toolName = "patch_file".data then
    [renderRel inp.path]
  else if toolName = "delete_file".data then
    ["(deleted) ".data ++ renderRel inp.path]
  else if toolName = "rename_file".data then
    ["(renamed) ".data ++ renderRel inp.old_path ++ " → ".data ++ renderRel inp.new_path]
  else []

/-- `_process_tool_calls`: execute every `toolUse` block in order, thread
the filesystem through, build one `toolResult` per `toolUse` echoing its
id, and extend `files_changed` for successful write-class calls (success
judged by the text not starting with `"Error"`, exactly as in the source).
Returns (tool result blocks, final filesystem, final `files_changed`). -/
def processToolCalls (o : Oracle) (root : FsPath) (blocks : List ContentBlock) (fs : FS)
    (filesChanged : List Text) : List ContentBlock × FS × List Text :=
  match blocks with
  | [] => ([], fs, filesChanged)
  | ContentBlock.toolUse id name inp :: rest =>
    let r := executeTool o name inp root fs
    let filesChanged1 :=
      if ("Error".data.isPrefixOf r.text) = false then filesChanged ++ changeEntry name inp
      else filesChanged
    let rec1 := processToolCalls o root rest r.fs filesChanged1
    (ContentBlock.toolResult id r.text :: rec1.1, rec1.2.1, rec1.2.2)
  | _ :: rest => processToolCalls o root rest fs filesChanged

/-- The result of `run_agent`: summary text, `files_changed`, the final
filesystem, and (as instrumentation) the number of endpoint round-trips
performed. -/
structure AgentOut where
  summary : Text
  filesChanged : List Text
  fs : FS
  rounds : Nat
deriving DecidableEq

/-- The `for iteration in range(1, MAX_AGENT_ITERATIONS + 1)` loop of
`run_agent`; `fuel` is the number of iterations left, `used` the number of
endpoint calls already made. -/
def runAgentLoop (o : Oracle) (root : FsPath) (ep : Endpoint) :
    Nat → List Message → FS → List Text → Nat → AgentOut
  | 0, _, fs, filesChanged, used =>
    AgentOut.mk EXHAUSTION_SUMMARY filesChanged fs used
  | Nat.succ fuel, messages, fs, filesChanged, used =>
    let r := ep messages
    let messages1 := messages ++ [r.message]
    if r.stopReason = "end_turn".data then
      AgentOut.mk (extractText r.message) filesChanged fs (used + 1)
    else if r.stopReason = "tool_use".data then
      let pr := processToolCalls o root r.message.content fs filesChanged
      runAgentLoop o root ep fuel (messages1 ++ [Message.mk "user".data pr.1]) pr.2.1 pr.2.2
        (used + 1)
    else
      AgentOut.mk (extractText r.message) filesChanged fs (used + 1)

/-- `run_agent` with a caller-supplied user prompt: seed the conversation
with one user message and run the bounded loop. -/
def runAgent (o : Oracle) (root : FsPath) (ep : Endpoint) (userPrompt : Text) (fs : FS) :
    AgentOut :=
  runAgentLoop o root ep MAX_AGENT_ITERATIONS
    [Message.mk "user".data [ContentBlock.text userPrompt]] fs [] 0

/-! ## Specification-side definitions

These re-state, in the vocabulary of the specification's claims, what the
orchestrator and executor are supposed to produce; the theorems below
relate them to the source-translated functions. -/

/-- The `toolUse` blocks of a message, projected to (id, name, input). -/
def toolUsesOf (blocks : List ContentBlock) : List (Text × Text × ToolInput) :=
  blocks.filterMap (fun b =>
    match b with
    | ContentBlock.toolUse id name inp => some (id, name, inp)
    | _ => none)

/-- Spec: executing the requested tool calls sequentially, in order, each
yielding exactly one ToolResult echoing its id; returns the result blocks
and the final filesystem. -/
def roundResultsSpec (o : Oracle) (root : FsPath) :
    List (Text × Text × ToolInput) → FS → List ContentBlock × FS
  | [], fs => ([], fs)
  | (id, name, inp) :: rest, fs =>
    let r := executeTool o name inp root fs
    let rec1 := roundResultsSpec o root rest r.fs
    (ContentBlock.toolResult id r.text :: rec1.1, rec1.2)

/-- Spec: the ChangeRecords of a round — one record per call whose executor
result is not an error and whose tool is write-class, classified by tool
identity; error results and read-class calls contribute nothing. -/
def changeRecordsSpec (o : Oracle) (root : FsPath) :
    List (Text × Text × ToolInput) → FS → List Text
  | [], _ => []
  | (_, name, inp) :: rest, fs =>
    let r := executeTool o name inp root fs
    (if r.isErr = false ∧ name ∈ WRITE_TOOLS then changeEntry name inp else []) ++
      changeRecordsSpec o root rest r.fs

/-- Spec: the ChangeRecords accumulated over `n` rounds of an endpoint that
keeps requesting tools (the records the exhausted loop must return). -/
def capChangesSpec (o : Oracle) (root : FsPath) (ep : Endpoint) :
    Nat → List Message → FS → List Text → List Text
  | 0, _, _, filesChanged => filesChanged
  | Nat.succ n, messages, fs, filesChanged =>
    let r := ep messages
    let pr := processToolCalls o root r.message.content fs filesChanged
    capChangesSpec o root ep n (messages ++ [r.message, Message.mk "user".data pr.1]) pr.2.1
      pr.2.2

/-- The number of positions at which `pat` occurs in `s` (occurrences may
overlap): the literal reading of "the content contains the snippet exactly
`k` times". -/
def occurrenceCount (s pat : Text) : Nat :=
  ((List.range (s.length + 1)).filter (fun i => pat.isPrefixOf (s.drop i))).length

/-- Replacing the content of one file, leaving the rest of the filesystem
alone (used to state content-independence of validation errors). -/
def FS.withFile (fs : FS) (p : FsPath) (c : Text) : FS :=
  { fs with files := setFileEntry p c fs.files }

/-! ## Concrete fixtures used by witnesses and counterexamples -/

/-- A trivial oracle: regex compilation fails, globs match nothing,
subprocesses fail; used where the oracle is irrelevant. -/
def oTriv : Oracle :=
  Oracle.mk (fun _ => Except.error []) (fun _ _ => false)
    (fun fs _ => (SubprocOutcome.failed [], fs))

/-- An empty repository working tree. -/
def fsEmpty : FS := FS.mk [] []

/-- Oracle whose subprocess produces 10100 characters of standard output
and exit code 7. -/
def bigOut : Text := List.replicate 10100 'a'

def oBig : Oracle :=
  Oracle.mk (fun _ => Except.error []) (fun _ _ => false)
    (fun fs _ => (SubprocOutcome.completed bigOut [] 7, fs))

def cmdInp : ToolInput := { command := "python generate.py".data }

/-- An endpoint that always requests the same `read_file` tool call. -/
def epAlwaysTool : Endpoint := fun _ =>
  Reply.mk (Message.mk "assistant".data
    [ContentBlock.toolUse "t1".data "read_file".data ({ path := ["f".data] } : ToolInput)])
    "tool_use".data

/-- An endpoint that immediately ends the turn with two text blocks. -/
def epTwoTexts : Endpoint := fun _ =>
  Reply.mk (Message.mk "assistant".data
    [ContentBlock.text "a".data, ContentBlock.text "b".data]) "end_turn".data

/-- An endpoint that immediately ends the turn with a single text block. -/
def epDone : Endpoint := fun _ =>
  Reply.mk (Message.mk "assistant".data [ContentBlock.text "done".data]) "end_turn".data

/-- A round with one text block and one `write_file` tool call. -/
def epOneWrite : Endpoint := fun _ =>
  Reply.mk (Message.mk "assistant".data
    [ContentBlock.text "x".data,
     ContentBlock.toolUse "t1".data "write_file".data
       ({ path := ["f".data], content := "c".data } : ToolInput)]) "tool_use".data

/-! ## Helper lemmas about the `"Error"` prefix of result texts -/

/-- The `retErr` texts of a handler output start with `"Error"`. -/
@[reducible] def ErrTexts (h : HandlerOut) : Prop :=
  match h with
  | HandlerOut.retErr t _ => "Error".data <+: t
  | _ => True

/-- The `retOk` texts of a handler output do not start with `"Error"`. -/
@[reducible] def OkTexts (h : HandlerOut) : Prop :=
  match h with
  | HandlerOut.retOk t _ => ¬ ("Error".data <+: t)
  | _ => True

theorem error_prefix_append (s x : Text) (h : "Error".data <+: s) :
    "Error".data <+: s ++ x :=
  h.trans (List.prefix_append s x)

theorem not_error_prefix_append (s x : Text) (h5 : 5 ≤ s.length)
    (h : s.take 5 ≠ "Error".data) : ¬ ("Error".data <+: s ++ x) := by
  intro hp
  apply h
  have he : "Error".data = (s ++ x).take 5 := List.prefix_iff_eq_take.mp hp
  rw [List.take_append_eq_append_take, Nat.sub_eq_zero_of_le h5, List.take_zero,
    List.append_nil] at he
  exact he.symm

theorem execListDirectory_errTexts (o : Oracle) (inp : ToolInput) (root : FsPath) (fs : FS) :
    ErrTexts (execListDirectory o inp root fs) := by
  unfold execListDirectory
  dsimp only
  repeat' split
  all_goals try simp only [ErrTexts, OkTexts, List.append_assoc]
  all_goals
    first
    | trivial
    | exact (by decide)
    | exact error_prefix_append _ _ (by decide)

theorem execListDirectoryTree_errTexts (o : Oracle) (inp : ToolInput) (root : FsPath) (fs : FS) :
    ErrTexts (execListDirectoryTree o inp root fs) := by
  unfold execListDirectoryTree
  dsimp only
  repeat' split
  all_goals try simp only [ErrTexts, OkTexts, List.append_assoc]
  all_goals
    first
    | trivial
    | exact (by decide)
    | exact error_prefix_append _ _ (by decide)

theorem execSearchInFiles_errTexts (o : Oracle) (inp : ToolInput) (root : FsPath) (fs : FS) :
    ErrTexts (execSearchInFiles o inp root fs) := by
  unfold execSearchInFiles
  dsimp only
  repeat' split
  all_goals try simp only [ErrTexts, OkTexts, List.append_assoc]
  all_goals
    first
    | trivial
    | exact (by decide)
    | exact error_prefix_append _ _ (by decide)

theorem execReadFile_errTexts (o : Oracle) (inp : ToolInput) (root : FsPath) (fs : FS) :
    ErrTexts (execReadFile o inp root fs) := by
  unfold execReadFile
  dsimp only
  repeat' split
  all_goals try simp only [ErrTexts, OkTexts, List.append_assoc]
  all_goals
    first
    | trivial
    | exact (by decide)
    | exact error_prefix_append _ _ (by decide)

theorem execReadFileLines_errTexts (o : Oracle) (inp : ToolInput) (root : FsPath) (fs : FS) :
    ErrTexts (execReadFileLines o inp root fs) := by
  unfold execReadFileLines
  dsimp only
  repeat' split
  all_goals try simp only [ErrTexts, OkTexts, List.append_assoc]
  all_goals
    first
    | trivial
    | exact (by decide)
    | exact error_prefix_append _ _ (by decide)

theorem execWriteFile_errTexts (o : Oracle) (inp : ToolInput) (root : FsPath) (fs : FS) :
    ErrTexts (execWriteFile o inp root fs) := by
  unfold execWriteFile
  dsimp only
  repeat' split
  all_goals try simp only [ErrTexts, OkTexts, List.append_assoc]
  all_goals
    first
    | trivial
    | exact (by decide)
    | exact error_prefix_append _ _ (by decide)

theorem execCreateFile_errTexts (o : Oracle) (inp : ToolInput) (root : FsPath) (fs : FS) :
    ErrTexts (execCreateFile o inp root fs) := by
  unfold execCreateFile
  dsimp only
  repeat' split
  all_goals try simp only [ErrTexts, OkTexts, List.append_assoc]
  all_goals
    first
    | trivial
    | exact (by decide)
    | exact error_prefix_append _ _ (by decide)

theorem execPatchFile_errTexts (o : Oracle) (inp : ToolInput) (root : FsPath) (fs : FS) :
    ErrTexts (execPatchFile o inp root fs) := by
  unfold execPatchFile
  dsimp only
  repeat' split
  all_goals try simp only [ErrTexts, OkTexts, List.append_assoc]
  all_goals
    first
    | trivial
    | exact (by decide)
    | exact error_prefix_append _ _ (by decide)

theorem execDeleteFile_errTexts (o : Oracle) (inp : ToolInput) (root : FsPath) (fs : FS) :
    ErrTexts (execDeleteFile o inp root fs) := by
  unfold execDeleteFile
  dsimp only
  repeat' split
  all_goals try simp only [ErrTexts, OkTexts, List.append_assoc]
  all_goals
    first
    | trivial
    | exact (by decide)
    | exact error_prefix_append _ _ (by decide)

theorem execRenameFile_errTexts (o : Oracle) (inp : ToolInput) (root : FsPath) (fs : FS) :
    ErrTexts (execRenameFile o inp root fs) := by
  unfold execRenameFile
  dsimp only
  repeat' split
  all_goals try simp only [ErrTexts, OkTexts, List.append_assoc]
  all_goals
    first
    | trivial
    | exact (by decide)
    | exact error_prefix_append _ _ (by decide)

theorem execRunCommand_errTexts (o : Oracle) (inp : ToolInput) (root : FsPath) (fs : FS) :
    ErrTexts (execRunCommand o inp root fs) := by
  unfold execRunCommand
  dsimp only
  repeat' split
  all_goals try simp only [ErrTexts, OkTexts, List.append_assoc]
  all_goals
    first
    | trivial
    | exact (by decide)
    | exact error_prefix_append _ _ (by decide)

theorem execWriteFile_okTexts (o : Oracle) (inp : ToolInput) (root : FsPath) (fs : FS) :
    OkTexts (execWriteFile o inp root fs) := by
  unfold execWriteFile
  dsimp only
  repeat' split
  all_goals try simp only [ErrTexts, OkTexts, List.append_assoc]
  all_goals
    first
    | trivial
    | exact not_error_prefix_append _ _ (by decide) (by decide)

theorem execCreateFile_okTexts (o : Oracle) (inp : ToolInput) (root : FsPath) (fs : FS) :
    OkTexts (execCreateFile o inp root fs) := by
  unfold execCreateFile
  dsimp only
  repeat' split
  all_goals try simp only [ErrTexts, OkTexts, List.append_assoc]
  all_goals
    first
    | trivial
    | exact not_error_prefix_append _ _ (by decide) (by decide)

theorem execPatchFile_okTexts (o : Oracle) (inp : ToolInput) (root : FsPath) (fs : FS) :
    OkTexts (execPatchFile o inp root fs) := by
  unfold execPatchFile
  dsimp only
  repeat' split
  all_goals try simp only [ErrTexts, OkTexts, List.append_assoc]
  all_goals
    first
    | trivial
    | exact not_error_prefix_append _ _ (by decide) (by decide)

theorem execDeleteFile_okTexts (o : Oracle) (inp : ToolInput) (root : FsPath) (fs : FS) :
    OkTexts (execDeleteFile o inp root fs) := by
  unfold execDeleteFile
  dsimp only
  repeat' split
  all_goals try simp only [ErrTexts, OkTexts, List.append_assoc]
  all_goals
    first
    | trivial
    | exact not_error_prefix_append _ _ (by decide) (by decide)

theorem execRenameFile_okTexts (o : Oracle) (inp : ToolInput) (root : FsPath) (fs : FS) :
    OkTexts (execRenameFile o inp root fs) := by
  unfold execRenameFile
  dsimp only
  repeat' split
  all_goals try simp only [ErrTexts, OkTexts, List.append_assoc]
  all_goals
    first
    | trivial
    | exact not_error_prefix_append _ _ (by decide) (by decide)

theorem lookupHandler_mem (l : List (Text × (Oracle → ToolInput → FsPath → FS → HandlerOut)))
    (n : Text) (h : Oracle → ToolInput → FsPath → FS → HandlerOut)
    (hh : lookupHandler l n = some h) : ∃ e, e ∈ l ∧ e.2 = h := by
  induction l with
  | nil => exact Option.noConfusion hh
  | cons e rest ih =>
    unfold lookupHandler at hh
    by_cases he : e.1 = n
    · rw [if_pos he] at hh
      cases hh
      exact ⟨e, List.mem_cons_self e rest, rfl⟩
    · rw [if_neg he] at hh
      obtain ⟨e1, he1, he2⟩ := ih hh
      exact ⟨e1, List.mem_cons_of_mem e he1, he2⟩

theorem handlerFor_errTexts (name : Text) (h : Oracle → ToolInput → FsPath → FS → HandlerOut)
    (hh : handlerFor name = some h) (o : Oracle) (inp : ToolInput) (root : FsPath) (fs : FS) :
    ErrTexts (h o inp root fs) := by
  obtain ⟨e, he, rfl⟩ := lookupHandler_mem DISPATCHER name h hh
  simp only [DISPATCHER, List.mem_cons, List.not_mem_nil, or_false] at he
  rcases he with rfl | rfl | rfl | rfl | rfl | rfl | rfl | rfl | rfl | rfl | rfl
  · exact execListDirectory_errTexts o inp root fs
  · exact execListDirectoryTree_errTexts o inp root fs
  · exact execSearchInFiles_errTexts o inp root fs
  · exact execReadFile_errTexts o inp root fs
  · exact execReadFileLines_errTexts o inp root fs
  · exact execWriteFile_errTexts o inp root fs
  · exact execCreateFile_errTexts o inp root fs
  · exact execPatchFile_errTexts o inp root fs
  · exact execDeleteFile_errTexts o inp root fs
  · exact execRenameFile_errTexts o inp root fs
  · exact execRunCommand_errTexts o inp root fs

theorem handlerFor_okTexts (name : Text) (h : Oracle → ToolInput → FsPath → FS → HandlerOut)
    (hw : name ∈ WRITE_TOOLS) (hh : handlerFor name = some h)
    (o : Oracle) (inp : ToolInput) (root : FsPath) (fs : FS) :
    OkTexts (h o inp root fs) := by
  have hw' : name = "write_file".data ∨ name = "create_file".data ∨ name = "patch_file".data ∨
      name = "delete_file".data ∨ name = "rename_file".data := by
    simpa [WRITE_TOOLS] using hw
  rcases hw' with rfl | rfl | rfl | rfl | rfl
  · rw [show handlerFor "write_file".data = some execWriteFile from rfl] at hh
    cases hh
    exact execWriteFile_okTexts o inp root fs
  · rw [show handlerFor "create_file".data = some execCreateFile from rfl] at hh
    cases hh
    exact execCreateFile_okTexts o inp root fs
  · rw [show handlerFor "patch_file".data = some execPatchFile from rfl] at hh
    cases hh
    exact execPatchFile_okTexts o inp root fs
  · rw [show handlerFor "delete_file".data = some execDeleteFile from rfl] at hh
    cases hh
    exact execDeleteFile_okTexts o inp root fs
  · rw [show handlerFor "rename_file".data = some execRenameFile from rfl] at hh
    cases hh
    exact execRenameFile_okTexts o inp root fs

theorem executeTool_eq_none (o : Oracle) (name : Text) (inp : ToolInput) (root : FsPath)
    (fs : FS) (hh : handlerFor name = none) :
    executeTool o name inp root fs =
      ExecResult.mk ("Error: Unknown tool '".data ++ name ++ "'.".data) true fs := by
  unfold executeTool
  rw [hh]

theorem executeTool_eq_some (o : Oracle) (name : Text) (inp : ToolInput) (root : FsPath)
    (fs : FS) (h : Oracle → ToolInput → FsPath → FS → HandlerOut)
    (hh : handlerFor name = some h) :
    executeTool o name inp root fs = renderHandlerOut name (h o inp root fs) := by
  unfold executeTool
  rw [hh]

theorem renderHandlerOut_retOk_eq (n t : Text) (fs : FS) :
    renderHandlerOut n (HandlerOut.retOk t fs) = ExecResult.mk t false fs := rfl

theorem renderHandlerOut_retErr_eq (n t : Text) (fs : FS) :
    renderHandlerOut n (HandlerOut.retErr t fs) = ExecResult.mk t true fs := rfl

theorem renderHandlerOut_raiseVal_eq (n m : Text) (fs : FS) :
    renderHandlerOut n (HandlerOut.raiseVal m fs) =
      ExecResult.mk ("Error: ".data ++ m) true fs := rfl

theorem renderHandlerOut_raiseOther_eq (n m : Text) (fs : FS) :
    renderHandlerOut n (HandlerOut.raiseOther m fs) =
      ExecResult.mk ("Error executing ".data ++ n ++ ": ".data ++ m) true fs := rfl

theorem renderHandlerOut_err_starts_error (name : Text) (ho : HandlerOut) (hT : ErrTexts ho)
    (hE : (renderHandlerOut name ho).isErr = true) :
    "Error".data <+: (renderHandlerOut name ho).text := by
  cases ho with
  | retOk t fs1 => exact absurd hE (by simp [renderHandlerOut])
  | retErr t fs1 => simpa [renderHandlerOut, ErrTexts] using hT
  | raiseVal m fs1 =>
    show "Error".data <+: "Error: ".data ++ m
    exact error_prefix_append _ _ (by decide)
  | raiseOther m fs1 =>
    show "Error".data <+: "Error executing ".data ++ name ++ ": ".data ++ m
    simp only [List.append_assoc]
    exact error_prefix_append _ _ (by decide)

theorem renderHandlerOut_ok_no_error_start (name : Text) (ho : HandlerOut) (hT : OkTexts ho)
    (hE : (renderHandlerOut name ho).isErr = false) :
    ¬ ("Error".data <+: (renderHandlerOut name ho).text) := by
  cases ho with
  | retOk t fs1 => simpa [renderHandlerOut, OkTexts] using hT
  | retErr t fs1 => exact absurd hE (by simp [renderHandlerOut])
  | raiseVal m fs1 => exact absurd hE (by simp [renderHandlerOut])
  | raiseOther m fs1 => exact absurd hE (by simp [renderHandlerOut])

theorem executeTool_err_starts_error (o : Oracle) (name : Text) (inp : ToolInput) (root : FsPath)
    (fs : FS) (hE : (executeTool o name inp root fs).isErr = true) :
    "Error".data <+: (executeTool o name inp root fs).text := by
  cases hh : handlerFor name with
  | none =>
    rw [executeTool_eq_none o name inp root fs hh]
    simp only [List.append_assoc]
    exact error_prefix_append _ _ (by decide)
  | some h =>
    rw [executeTool_eq_some o name inp root fs h hh] at hE ⊢
    exact renderHandlerOut_err_starts_error name _ (handlerFor_errTexts name h hh o inp root fs) hE

theorem executeTool_write_ok_no_error_start (o : Oracle) (name : Text) (inp : ToolInput)
    (root : FsPath) (fs : FS) (hw : name ∈ WRITE_TOOLS)
    (hE : (executeTool o name inp root fs).isErr = false) :
    ¬ ("Error".data <+: (executeTool o name inp root fs).text) := by
  cases hh : handlerFor name with
  | none =>
    rw [executeTool_eq_none o name inp root fs hh] at hE
    exact absurd hE (by simp)
  | some h =>
    rw [executeTool_eq_some o name inp root fs h hh] at hE ⊢
    exact renderHandlerOut_ok_no_error_start name _ (handlerFor_okTexts name h hw hh o inp root fs) hE

theorem executeTool_prefix_eq_isErr (o : Oracle) (name : Text) (inp : ToolInput) (root : FsPath)
    (fs : FS) (hw : name ∈ WRITE_TOOLS) :
    ("Error".data.isPrefixOf (executeTool o name inp root fs).text) =
      (executeTool o name inp root fs).isErr := by
  cases hE : (executeTool o name inp root fs).isErr with
  | false =>
    have := executeTool_write_ok_no_error_start o name inp root fs hw hE
    rw [Bool.eq_false_iff]
    intro hT
    exact this (List.isPrefixOf_iff_prefix.mp hT)
  | true =>
    exact List.isPrefixOf_iff_prefix.mpr (executeTool_err_starts_error o name inp root fs hE)

/-! ## Claim theorems -/

/-- Claim C1: the spec demands that every relative path whose canonical join
with the root is not equal to or nested under the canonical root is rejected
with a traversal error before any filesystem access, for every repository
root.  The code FAILS this: `_resolve_safe_path` compares *string renderings*
with `startswith`, so for root `/repo` the path `../repo2` resolves to
`/repo2` — not a descendant of the root — yet `"/repo2".startswith("/repo")`
holds, the resolution succeeds, and `read_file` goes on to read a file
outside the repository. -/
theorem c1_path_traversal_prefix_bug :
    resolveSafePath ["repo".data] ["..".data, "repo2".data] = Except.ok ["repo2".data] ∧
    isDescendant ["repo".data] ["repo2".data] = false ∧
    (executeTool oTriv "read_file".data ({ path := ["..".data, "repo2".data] } : ToolInput)
      ["repo".data] (FS.mk [(["repo2".data], "secret".data)] [])).isErr = false ∧
    (executeTool oTriv "read_file".data ({ path := ["..".data, "repo2".data] } : ToolInput)
      ["repo".data] (FS.mk [(["repo2".data], "secret".data)] [])).text = "secret".data := by
  refine ⟨by decide, by decide, by decide, by decide⟩

/-- Claim C9: every command whose normalised form (lowercased, stripped)
starts with a deny-listed prefix makes `run_command` return an error result
without invoking a subprocess (the result is the same for every subprocess
oracle) and leaves the filesystem unchanged. -/
theorem c9_blocked_command_no_subprocess (inp : ToolInput) (root : FsPath) (fs : FS)
    (h : isBlockedCommand inp.command = true) :
    ∀ o : Oracle, executeTool o "run_command".data inp root fs =
      ExecResult.mk ("Error: Command '".data ++ inp.command ++ "' is blocked for safety.".data)
        true fs := by
  intro o
  rw [executeTool_eq_some o "run_command".data inp root fs execRunCommand
    (show handlerFor "run_command".data = some execRunCommand from rfl)]
  unfold execRunCommand
  simp only [h, if_true]
  rfl

/-- Witness for C9 at the concrete forced push `git push --force origin
main`. -/
theorem c9_blocked_command_no_subprocess_witness :
    isBlockedCommand "git push --force origin main".data = true ∧
    executeTool oTriv "run_command".data
        ({ command := "git push --force origin main".data } : ToolInput) ["repo".data] fsEmpty =
      ExecResult.mk ("Error: Command '".data ++ "git push --force origin main".data ++
        "' is blocked for safety.".data) true fsEmpty :=
  ⟨by decide,
   c9_blocked_command_no_subprocess
     ({ command := "git push --force origin main".data } : ToolInput) ["repo".data] fsEmpty
     (by decide) oTriv⟩

/-- Claim C10: every error result of the executor (unknown tool, domain
errors, wrapped unexpected failures) begins with `"Error"`; every success
result of a write-class tool does not begin with `"Error"`; and for
write-class tools the `startswith("Error")` test the orchestrator performs
coincides exactly with the executor's error/success distinction. -/
theorem c10_error_prefix_discriminator (o : Oracle) (name : Text) (inp : ToolInput)
    (root : FsPath) (fs : FS) :
    ((executeTool o name inp root fs).isErr = true →
      "Error".data <+: (executeTool o name inp root fs).text) ∧
    (name ∈ WRITE_TOOLS → (executeTool o name inp root fs).isErr = false →
      ¬ ("Error".data <+: (executeTool o name inp root fs).text)) ∧
    (name ∈ WRITE_TOOLS →
      ("Error".data.isPrefixOf (executeTool o name inp root fs).text) =
        (executeTool o name inp root fs).isErr) :=
  ⟨executeTool_err_starts_error o name inp root fs,
   fun hw => executeTool_write_ok_no_error_start o name inp root fs hw,
   fun hw => executeTool_prefix_eq_isErr o name inp root fs hw⟩

/-- Witness for C10: a concrete erroring `write_file` call. -/
theorem c10_error_prefix_discriminator_witness :
    ((executeTool oTriv "write_file".data ({} : ToolInput) ["repo".data] fsEmpty).isErr = true) ∧
    ("Error".data <+:
      (executeTool oTriv "write_file".data ({} : ToolInput) ["repo".data] fsEmpty).text) ∧
    ("write_file".data ∈ WRITE_TOOLS) ∧
    (("Error".data.isPrefixOf
        (executeTool oTriv "write_file".data ({} : ToolInput) ["repo".data] fsEmpty).text) =
      (executeTool oTriv "write_file".data ({} : ToolInput) ["repo".data] fsEmpty).isErr) :=
  ⟨by decide,
   (c10_error_prefix_discriminator oTriv "write_file".data ({} : ToolInput) ["repo".data]
       fsEmpty).1 (by decide),
   by decide,
   (c10_error_prefix_discriminator oTriv "write_file".data ({} : ToolInput) ["repo".data]
       fsEmpty).2.2 (by decide)⟩

/-! ### Claim C2: run_command output truncation -/

theorem bigOut_combined_eq :
    combinedOutput bigOut [] 7 = "STDOUT:\n".data ++ (bigOut ++ "\n\nEXIT CODE: 7".data) := by
  have hb0 : bigOut ≠ [] := by decide
  unfold combinedOutput
  rw [if_pos hb0, if_neg (by simp)]
  simp only [List.nil_append, List.singleton_append, joinWith, List.append_assoc]
  have he : "\n\n".data ++ ("EXIT CODE: ".data ++ intText 7) = "\n\nEXIT CODE: 7".data := by
    decide
  rw [he]

theorem bigOut_length : bigOut.length = 10100 := by
  rw [bigOut, List.length_replicate]

theorem bigOut_combined_length : (combinedOutput bigOut [] 7).length = 10122 := by
  rw [bigOut_combined_eq]
  have l1 : ("STDOUT:\n".data).length = 8 := by decide
  have l2 : ("\n\nEXIT CODE: 7".data).length = 14 := by decide
  rw [List.length_append, List.length_append, l1, l2, bigOut_length]

theorem bigOut_combined_take :
    (combinedOutput bigOut [] 7).take 10000 = "STDOUT:\n".data ++ List.replicate 9992 'a' := by
  rw [bigOut_combined_eq]
  have l1 : ("STDOUT:\n".data).length = 8 := by decide
  rw [List.take_append_eq_append_take, List.take_of_length_le (by rw [l1]; omega), l1]
  rw [List.take_append_eq_append_take, bigOut_length]
  rw [show (10000 - 8 : Nat) = 9992 from by omega]
  rw [show (9992 - 10100 : Nat) = 0 from by omega, List.take_zero, List.append_nil]
  rw [bigOut, List.take_replicate, Nat.min_eq_left (by omega)]

/-- Claim C2 counterexample: a command whose captured standard output alone
exceeds the cap (10100 characters, exit code 7).  The returned text is the
first 10000 characters followed by the truncation marker — and because the
exit-code line is the *last* part of the combined output, it is cut off:
the real exit code is NOT reported in the returned text, refuting the
claim's "the command's real exit code is still reported". -/
theorem c2_exit_code_lost_counterexample :
    (executeTool oBig "run_command".data cmdInp ["repo".data] fsEmpty).text =
      "STDOUT:\n".data ++ List.replicate 9992 'a' ++ TRUNCATION_MARKER ∧
    ¬ ("EXIT CODE: 7".data <:+:
        (executeTool oBig "run_command".data cmdInp ["repo".data] fsEmpty).text) := by
  have h1t : (executeTool oBig "run_command".data cmdInp ["repo".data] fsEmpty).text =
      formatCommandOutput bigOut [] 7 := by
    have key : ∀ X : Text, formatCommandOutput bigOut [] 7 = X →
        (executeTool oBig "run_command".data cmdInp ["repo".data] fsEmpty).text = X := by
      intro X hX
      rw [executeTool_eq_some oBig "run_command".data cmdInp ["repo".data] fsEmpty execRunCommand
        (show handlerFor "run_command".data = some execRunCommand from rfl)]
      unfold execRunCommand
      rw [if_neg (by decide)]
      rw [show oBig.subproc fsEmpty cmdInp.command =
        (SubprocOutcome.completed bigOut [] 7, fsEmpty) from rfl]
      rw [renderHandlerOut_retOk_eq]
      simpa using hX
    exact key _ rfl
  have hfmt_eval : formatCommandOutput bigOut [] 7 =
      "STDOUT:\n".data ++ List.replicate 9992 'a' ++ TRUNCATION_MARKER := by
    unfold formatCommandOutput
    rw [if_pos (by rw [bigOut_combined_length]; omega), bigOut_combined_take]
  have htext : (executeTool oBig "run_command".data cmdInp ["repo".data] fsEmpty).text =
      "STDOUT:\n".data ++ List.replicate 9992 'a' ++ TRUNCATION_MARKER :=
    h1t.trans hfmt_eval
  have h7 : '7' ∉ (executeTool oBig "run_command".data cmdInp ["repo".data] fsEmpty).text := by
    rw [htext]
    intro hm
    rcases List.mem_append.mp hm with hm | hm
    · rcases List.mem_append.mp hm with hm | hm
      · exact absurd hm (by decide)
      · exact absurd (List.eq_of_mem_replicate hm) (by decide)
    · exact absurd hm (by decide)
  refine ⟨htext, fun hinf => h7 (hinf.subset (by decide))⟩

/-- Claim C2 (amended): for every command whose combined captured output
exceeds the 10000-character cap, `run_command` returns the first 10000
characters of the combined output followed by the truncation marker (so the
result ends in the marker and has length 10000 + marker length); the
exit-code line, being the final part of the combined output, is itself
truncated away rather than still reported. -/
theorem c2_run_command_truncation (o : Oracle) (inp : ToolInput) (root : FsPath)
    (fs fs1 : FS) (stdout stderr : Text) (rc : Int)
    (hb : isBlockedCommand inp.command = false)
    (hs : o.subproc fs inp.command = (SubprocOutcome.completed stdout stderr rc, fs1))
    (hlen : (combinedOutput stdout stderr rc).length > 10000) :
    (executeTool o "run_command".data inp root fs).isErr = false ∧
    (executeTool o "run_command".data inp root fs).fs = fs1 ∧
    (executeTool o "run_command".data inp root fs).text =
      (combinedOutput stdout stderr rc).take 10000 ++ TRUNCATION_MARKER ∧
    (executeTool o "run_command".data inp root fs).text.length =
      10000 + TRUNCATION_MARKER.length ∧
    TRUNCATION_MARKER <:+ (executeTool o "run_command".data inp root fs).text := by
  have hexec : executeTool o "run_command".data inp root fs =
      ExecResult.mk (formatCommandOutput stdout stderr rc) false fs1 := by
    rw [executeTool_eq_some o "run_command".data inp root fs execRunCommand
      (show handlerFor "run_command".data = some execRunCommand from rfl)]
    unfold execRunCommand
    rw [if_neg (by simp [hb]), hs]
    rfl
  have hfmt : formatCommandOutput stdout stderr rc =
      (combinedOutput stdout stderr rc).take 10000 ++ TRUNCATION_MARKER := by
    unfold formatCommandOutput
    rw [if_pos hlen]
  rw [hexec]
  refine ⟨rfl, rfl, hfmt, ?_, ?_⟩
  · show (formatCommandOutput stdout stderr rc).length = _
    rw [hfmt, List.length_append, List.length_take, Nat.min_eq_left (by omega)]
  · show TRUNCATION_MARKER <:+ formatCommandOutput stdout stderr rc
    rw [hfmt]
    exact List.suffix_append _ _

/-- Witness for the amended C2 at the concrete 10100-character output. -/
theorem c2_run_command_truncation_witness :
    isBlockedCommand cmdInp.command = false ∧
    oBig.subproc fsEmpty cmdInp.command = (SubprocOutcome.completed bigOut [] 7, fsEmpty) ∧
    (combinedOutput bigOut [] 7).length > 10000 ∧
    ((executeTool oBig "run_command".data cmdInp ["repo".data] fsEmpty).text =
      (combinedOutput bigOut [] 7).take 10000 ++ TRUNCATION_MARKER) :=
  ⟨by decide, rfl, by rw [bigOut_combined_length]; omega,
   (c2_run_command_truncation oBig cmdInp ["repo".data] fsEmpty fsEmpty bigOut [] 7
     (by decide) rfl (by rw [bigOut_combined_length]; omega)).2.2.1⟩

/-! ### Claim C3: patch_file uniqueness rule -/

theorem pyReplaceFirst_decomp (pat new : Text) (hpat : pat ≠ []) :
    ∀ s : Text, pyCountAux pat s 0 ≠ 0 →
      ∃ pre post, s = pre ++ pat ++ post ∧
        pyReplaceFirst pat new s = pre ++ new ++ post := by
  intro s
  induction s with
  | nil =>
    intro h
    simp [pyCountAux] at h
  | cons c rest ih =>
    intro h
    by_cases hp : pat.isPrefixOf (c :: rest)
    · obtain ⟨t, ht⟩ := List.isPrefixOf_iff_prefix.mp hp
      refine ⟨[], t, by simpa using ht.symm, ?_⟩
      unfold pyReplaceFirst
      rw [if_neg hpat, if_pos hp]
      have hd : (c :: rest).drop pat.length = t := by
        rw [← ht, List.drop_left]
      rw [hd]
      simp
    · unfold pyCountAux at h
      rw [if_neg hp] at h
      obtain ⟨pre, post, h1, h2⟩ := ih h
      refine ⟨c :: pre, post, by simp [h1], ?_⟩
      unfold pyReplaceFirst
      rw [if_neg hpat, if_neg hp]
      simp [h2]

theorem pyReplaceFirst_decomp_of_count_one (content old new : Text)
    (h : pyCount content old = 1) :
    ∃ pre post, content = pre ++ old ++ post ∧
      pyReplaceFirst old new content = pre ++ new ++ post := by
  by_cases hpat : old = []
  · subst hpat
    unfold pyCount at h
    rw [if_pos rfl] at h
    have hlen : content.length = 0 := by omega
    have hc : content = [] := List.length_eq_zero.mp hlen
    subst hc
    exact ⟨[], [], by simp, by simp [pyReplaceFirst]⟩
  · have h0 : pyCountAux old content 0 ≠ 0 := by
      unfold pyCount at h
      rw [if_neg hpat] at h
      omega
    exact pyReplaceFirst_decomp old new hpat content h0

theorem lookupFile_setFileEntry_self (p : FsPath) (c : Text) :
    ∀ l : List (FsPath × Text), lookupFile (setFileEntry p c l) p = some c := by
  intro l
  induction l with
  | nil => simp [setFileEntry, lookupFile]
  | cons e rest ih =>
    unfold setFileEntry
    by_cases he : e.1 = p
    · rw [if_pos he]
      simp [lookupFile]
    · rw [if_neg he]
      unfold lookupFile
      rw [if_neg he]
      exact ih

theorem lookupFile_setFileEntry_other (p q : FsPath) (c : Text) (hq : q ≠ p) :
    ∀ l : List (FsPath × Text), lookupFile (setFileEntry p c l) q = lookupFile l q := by
  intro l
  induction l with
  | nil => simp [setFileEntry, lookupFile, Ne.symm hq]
  | cons e rest ih =>
    unfold setFileEntry
    by_cases he : e.1 = p
    · rw [if_pos he]
      unfold lookupFile
      rw [if_neg (by simpa using Ne.symm hq), if_neg (by rw [he]; simpa using Ne.symm hq)]
    · rw [if_neg he]
      unfold lookupFile
      by_cases he2 : e.1 = q
      · rw [if_pos he2, if_pos he2]
      · rw [if_neg he2, if_neg he2]
        exact ih

theorem FS.isFile_of_lookup (fs : FS) (p : FsPath) (c : Text)
    (h : lookupFile fs.files p = some c) : fs.isFile p = true := by
  unfold FS.isFile
  rw [h]
  rfl

theorem FS.existsPath_of_lookup (fs : FS) (p : FsPath) (c : Text)
    (h : lookupFile fs.files p = some c) : fs.existsPath p = true := by
  unfold FS.existsPath
  rw [FS.isFile_of_lookup fs p c h]
  rfl

/-- Claim C3 counterexample: the content `aaa` contains the snippet `aa` at
exactly two (overlapping) positions, yet `patch_file` does not return an
ambiguity error: Python's non-overlapping `str.count` sees a single
occurrence, the call succeeds, and the file is rewritten to `ba`. -/
theorem c3_patch_overlap_counterexample :
    occurrenceCount "aaa".data "aa".data = 2 ∧
    (executeTool oTriv "patch_file".data
      ({ path := ["f".data], old_text := "aa".data, new_text := "b".data } : ToolInput)
      ["repo".data] (FS.mk [(["repo".data, "f".data], "aaa".data)] [])).isErr = false ∧
    lookupFile (executeTool oTriv "patch_file".data
      ({ path := ["f".data], old_text := "aa".data, new_text := "b".data } : ToolInput)
      ["repo".data] (FS.mk [(["repo".data, "f".data], "aaa".data)] [])).fs.files
      ["repo".data, "f".data] = some "ba".data := by
  refine ⟨by decide, by decide, by decide⟩

/-- Claim C3 (amended): with occurrences counted as Python's `str.count`
does (non-overlapping, left to right): a file whose content has count 2
yields an ambiguity error and is left byte-for-byte unchanged; count 1
succeeds and the new content is the old content with that occurrence
replaced (other files untouched); count 0 yields a not-found error and the
file is unchanged. -/
theorem c3_patch_file_uniqueness (o : Oracle) (inp : ToolInput) (root : FsPath) (fs : FS)
    (target : FsPath) (content : Text)
    (hres : resolveSafePath root inp.path = Except.ok target)
    (hfile : lookupFile fs.files target = some content) :
    (pyCount content inp.old_text = 2 →
      (executeTool o "patch_file".data inp root fs).isErr = true ∧
      (executeTool o "patch_file".data inp root fs).fs = fs) ∧
    (pyCount content inp.old_text = 1 →
      (executeTool o "patch_file".data inp root fs).isErr = false ∧
      (∃ pre post, content = pre ++ inp.old_text ++ post ∧
        lookupFile (executeTool o "patch_file".data inp root fs).fs.files target =
          some (pre ++ inp.new_text ++ post)) ∧
      (∀ q, q ≠ target →
        lookupFile (executeTool o "patch_file".data inp root fs).fs.files q =
          lookupFile fs.files q)) ∧
    (pyCount content inp.old_text = 0 →
      (executeTool o "patch_file".data inp root fs).isErr = true ∧
      (executeTool o "patch_file".data inp root fs).fs = fs) := by
  have hdisp : executeTool o "patch_file".data inp root fs =
      renderHandlerOut "patch_file".data (execPatchFile o inp root fs) :=
    executeTool_eq_some o "patch_file".data inp root fs execPatchFile
      (show handlerFor "patch_file".data = some execPatchFile from rfl)
  have hex := FS.existsPath_of_lookup fs target content hfile
  have hif := FS.isFile_of_lookup fs target content hfile
  refine ⟨fun hc => ?_, fun hc => ?_, fun hc => ?_⟩
  · rw [hdisp]
    unfold execPatchFile
    rw [hres]
    simp [hex, hif, hfile, hc, renderHandlerOut]
  · have hpe : executeTool o "patch_file".data inp root fs =
        ExecResult.mk ("Successfully patched ".data ++ renderRel inp.path) false
          (fs.writeFile target (pyReplaceFirst inp.old_text inp.new_text content)) := by
      rw [hdisp]
      unfold execPatchFile
      rw [hres]
      simp [hex, hif, hfile, hc, renderHandlerOut]
    rw [hpe]
    obtain ⟨pre, post, h1, h2⟩ :=
      pyReplaceFirst_decomp_of_count_one content inp.old_text inp.new_text hc
    refine ⟨rfl, ⟨pre, post, h1, ?_⟩, fun q hqt => ?_⟩
    · show lookupFile (setFileEntry target _ fs.files) target = _
      rw [lookupFile_setFileEntry_self, h2]
    · show lookupFile (setFileEntry target _ fs.files) q = _
      rw [lookupFile_setFileEntry_other target q _ hqt]
  · rw [hdisp]
    unfold execPatchFile
    rw [hres]
    simp [hex, hif, hfile, hc, renderHandlerOut]

/-- Witness for the amended C3: patching `b` to `XY` in a file containing
`abc` (count 1). -/
theorem c3_patch_file_uniqueness_witness :
    resolveSafePath ["repo".data] ["f".data] = Except.ok ["repo".data, "f".data] ∧
    lookupFile (FS.mk [(["repo".data, "f".data], "abc".data)] []).files
      ["repo".data, "f".data] = some "abc".data ∧
    pyCount "abc".data "b".data = 1 ∧
    ((executeTool oTriv "patch_file".data
        ({ path := ["f".data], old_text := "b".data, new_text := "XY".data } : ToolInput)
        ["repo".data] (FS.mk [(["repo".data, "f".data], "abc".data)] [])).isErr = false ∧
      (∃ pre post, "abc".data = pre ++ "b".data ++ post ∧
        lookupFile (executeTool oTriv "patch_file".data
          ({ path := ["f".data], old_text := "b".data, new_text := "XY".data } : ToolInput)
          ["repo".data] (FS.mk [(["repo".data, "f".data], "abc".data)] [])).fs.files
          ["repo".data, "f".data] = some (pre ++ "XY".data ++ post)) ∧
      (∀ q, q ≠ ["repo".data, "f".data] →
        lookupFile (executeTool oTriv "patch_file".data
          ({ path := ["f".data], old_text := "b".data, new_text := "XY".data } : ToolInput)
          ["repo".data] (FS.mk [(["repo".data, "f".data], "abc".data)] [])).fs.files q =
          lookupFile (FS.mk [(["repo".data, "f".data], "abc".data)] []).files q)) :=
  ⟨by decide, by decide, by decide,
   (c3_patch_file_uniqueness oTriv
     ({ path := ["f".data], old_text := "b".data, new_text := "XY".data } : ToolInput)
     ["repo".data] (FS.mk [(["repo".data, "f".data], "abc".data)] [])
     ["repo".data, "f".data] "abc".data (by decide) (by decide)).2.1 (by decide)⟩

/-! ### Claim C4: write_file / create_file contracts -/

/-- Claim C4 counterexample: with `a` an existing regular file, the path
`a/b` is fresh (it does not exist), yet `create_file` on it fails — the
parent-directory creation raises because `a` is a file, and the dispatcher
converts that into an execution error. -/
theorem c4_create_fresh_counterexample :
    (FS.mk [(["repo".data, "a".data], "x".data)] []).existsPath
        ["repo".data, "a".data, "b".data] = false ∧
    (executeTool oTriv "create_file".data
      ({ path := ["a".data, "b".data], content := "y".data } : ToolInput)
      ["repo".data] (FS.mk [(["repo".data, "a".data], "x".data)] [])).isErr = true := by
  refine ⟨by decide, by decide⟩

/-- Claim C4 (amended): `write_file` on a nonexistent target errors (state
unchanged); `create_file` on an existing target errors (state unchanged);
and on a fresh target *none of whose strict ancestors is an existing
regular file*, `create_file` followed by `write_file` both succeed and the
final content of the file is the content given to the last write. -/
theorem c4_write_create_sequence (o : Oracle) (inp : ToolInput) (root : FsPath) (fs : FS)
    (target : FsPath) (c1 c2 : Text)
    (hres : resolveSafePath root inp.path = Except.ok target) :
    (fs.existsPath target = false →
      (executeTool o "write_file".data inp root fs).isErr = true ∧
      (executeTool o "write_file".data inp root fs).fs = fs) ∧
    (fs.existsPath target = true →
      (executeTool o "create_file".data inp root fs).isErr = true ∧
      (executeTool o "create_file".data inp root fs).fs = fs) ∧
    (fs.existsPath target = false →
      (strictAncestors target).any (fun a => fs.isFile a) = false →
      (executeTool o "create_file".data { inp with content := c1 } root fs).isErr = false ∧
      (executeTool o "write_file".data { inp with content := c2 } root
        (executeTool o "create_file".data { inp with content := c1 } root fs).fs).isErr =
        false ∧
      lookupFile (executeTool o "write_file".data { inp with content := c2 } root
        (executeTool o "create_file".data { inp with content := c1 } root fs).fs).fs.files
        target = some c2) := by
  have hdispW : ∀ (inp1 : ToolInput) (fs1 : FS),
      executeTool o "write_file".data inp1 root fs1 =
        renderHandlerOut "write_file".data (execWriteFile o inp1 root fs1) :=
    fun inp1 fs1 => executeTool_eq_some o "write_file".data inp1 root fs1 execWriteFile
      (show handlerFor "write_file".data = some execWriteFile from rfl)
  have hdispC : ∀ (inp1 : ToolInput) (fs1 : FS),
      executeTool o "create_file".data inp1 root fs1 =
        renderHandlerOut "create_file".data (execCreateFile o inp1 root fs1) :=
    fun inp1 fs1 => executeTool_eq_some o "create_file".data inp1 root fs1 execCreateFile
      (show handlerFor "create_file".data = some execCreateFile from rfl)
  refine ⟨fun hx => ?_, fun hx => ?_, fun hx hanc => ?_⟩
  · rw [hdispW inp fs]
    unfold execWriteFile
    rw [hres]
    simp [hx, renderHandlerOut]
  · rw [hdispC inp fs]
    unfold execCreateFile
    rw [hres]
    simp [hx, renderHandlerOut]
  · have hpath : ({ inp with content := c1 } : ToolInput).path = inp.path := rfl
    have hce : executeTool o "create_file".data { inp with content := c1 } root fs =
        ExecResult.mk ("Successfully created ".data ++ renderRel inp.path) false
          (FS.mk (setFileEntry target c1 fs.files) (fs.dirs ++ [target.dropLast])) := by
      rw [hdispC { inp with content := c1 } fs]
      unfold execCreateFile
      rw [hpath, hres]
      unfold FS.mkdirParents
      simp [hx, hanc, FS.writeFile, renderHandlerOut]
    have hlook1 : lookupFile (setFileEntry target c1 fs.files) target = some c1 :=
      lookupFile_setFileEntry_self target c1 fs.files
    have hfs1 : (executeTool o "create_file".data { inp with content := c1 } root fs).fs =
        FS.mk (setFileEntry target c1 fs.files) (fs.dirs ++ [target.dropLast]) := by
      rw [hce]
    have hex1 : (FS.mk (setFileEntry target c1 fs.files)
        (fs.dirs ++ [target.dropLast])).existsPath target = true :=
      FS.existsPath_of_lookup _ target c1 hlook1
    have hif1 : (FS.mk (setFileEntry target c1 fs.files)
        (fs.dirs ++ [target.dropLast])).isFile target = true :=
      FS.isFile_of_lookup _ target c1 hlook1
    have hpath2 : ({ inp with content := c2 } : ToolInput).path = inp.path := rfl
    have hwe : executeTool o "write_file".data { inp with content := c2 } root
        (FS.mk (setFileEntry target c1 fs.files) (fs.dirs ++ [target.dropLast])) =
        ExecResult.mk ("Successfully wrote to ".data ++ renderRel inp.path) false
          (FS.mk (setFileEntry target c2 (setFileEntry target c1 fs.files))
            (fs.dirs ++ [target.dropLast])) := by
      rw [hdispW { inp with content := c2 }
        (FS.mk (setFileEntry target c1 fs.files) (fs.dirs ++ [target.dropLast]))]
      unfold execWriteFile
      rw [hpath2, hres]
      simp [hex1, hif1, FS.writeFile, renderHandlerOut]
    refine ⟨by rw [hce], ?_, ?_⟩
    · rw [hfs1, hwe]
    · rw [hfs1, hwe]
      exact lookupFile_setFileEntry_self target c2 (setFileEntry target c1 fs.files)

/-- Witness for the amended C4: create then write `d/f` under an empty
repository tree. -/
theorem c4_write_create_sequence_witness :
    resolveSafePath ["repo".data] ["d".data, "f".data] =
      Except.ok ["repo".data, "d".data, "f".data] ∧
    fsEmpty.existsPath ["repo".data, "d".data, "f".data] = false ∧
    (strictAncestors ["repo".data, "d".data, "f".data]).any
      (fun a => fsEmpty.isFile a) = false ∧
    ((executeTool oTriv "create_file".data
        ({ ({ path := ["d".data, "f".data] } : ToolInput) with content := "1".data } : ToolInput)
        ["repo".data] fsEmpty).isErr = false ∧
      (executeTool oTriv "write_file".data
        ({ ({ path := ["d".data, "f".data] } : ToolInput) with content := "2".data } : ToolInput)
        ["repo".data]
        (executeTool oTriv "create_file".data
          ({ ({ path := ["d".data, "f".data] } : ToolInput) with content := "1".data } : ToolInput)
          ["repo".data] fsEmpty).fs).isErr = false ∧
      lookupFile (executeTool oTriv "write_file".data
        ({ ({ path := ["d".data, "f".data] } : ToolInput) with content := "2".data } : ToolInput)
        ["repo".data]
        (executeTool oTriv "create_file".data
          ({ ({ path := ["d".data, "f".data] } : ToolInput) with content := "1".data } : ToolInput)
          ["repo".data] fsEmpty).fs).fs.files
        ["repo".data, "d".data, "f".data] = some "2".data) :=
  ⟨by decide, by decide, by decide,
   (c4_write_create_sequence oTriv ({ path := ["d".data, "f".data] } : ToolInput)
     ["repo".data] fsEmpty ["repo".data, "d".data, "f".data] "1".data "2".data
     (by decide)).2.2 (by decide) (by decide)⟩

/-! ### Claim C5: read_file_lines range handling -/

/-- Claim C5 counterexample: with `start=5, end=3` the call always fails,
but not *before touching the filesystem*: the handler stats the target
first, so the error it returns depends on the filesystem state (missing
file vs. range error). -/
theorem c5_fails_after_fs_access_counterexample :
    (executeTool oTriv "read_file_lines".data
      ({ path := ["f".data], start_line := 5, end_line := 3 } : ToolInput)
      ["repo".data] fsEmpty).isErr = true ∧
    (executeTool oTriv "read_file_lines".data
      ({ path := ["f".data], start_line := 5, end_line := 3 } : ToolInput)
      ["repo".data] (FS.mk [(["repo".data, "f".data], "x".data)] [])).isErr = true ∧
    (executeTool oTriv "read_file_lines".data
      ({ path := ["f".data], start_line := 5, end_line := 3 } : ToolInput)
      ["repo".data] fsEmpty).text ≠
      (executeTool oTriv "read_file_lines".data
        ({ path := ["f".data], start_line := 5, end_line := 3 } : ToolInput)
        ["repo".data] (FS.mk [(["repo".data, "f".data], "x".data)] [])).text := by
  refine ⟨by decide, by decide, by decide⟩

/-- Claim C5 (amended): `end_line < start_line` always fails with an error,
without reading the file's content (the returned text is the same for every
content of the target file), though the existence/file-type checks do run
first; `start_line < 1` always fails; a valid `start_line` within the file
with `end_line` at or beyond the file length is clamped: the call succeeds
and returns all lines from `start_line` to the last line, each prefixed
with its 1-indexed line number; `start_line` beyond the file length is an
error. -/
theorem c5_read_file_lines_ranges (o : Oracle) (inp : ToolInput) (root : FsPath) (fs : FS) :
    (inp.end_line < inp.start_line →
      (executeTool o "read_file_lines".data inp root fs).isErr = true ∧
      (executeTool o "read_file_lines".data inp root fs).fs = fs) ∧
    (inp.end_line < inp.start_line →
      ∀ target c1 c2, resolveSafePath root inp.path = Except.ok target →
        (executeTool o "read_file_lines".data inp root (fs.withFile target c1)).text =
          (executeTool o "read_file_lines".data inp root (fs.withFile target c2)).text) ∧
    (inp.start_line < 1 →
      (executeTool o "read_file_lines".data inp root fs).isErr = true ∧
      (executeTool o "read_file_lines".data inp root fs).fs = fs) ∧
    (∀ target content, resolveSafePath root inp.path = Except.ok target →
      lookupFile fs.files target = some content →
      1 ≤ inp.start_line → inp.start_line ≤ inp.end_line →
      (((pySplitlines content).length : Int) < inp.start_line →
        (executeTool o "read_file_lines".data inp root fs).isErr = true) ∧
      (inp.start_line ≤ ((pySplitlines content).length : Int) →
        ((pySplitlines content).length : Int) ≤ inp.end_line →
        (executeTool o "read_file_lines".data inp root fs).isErr = false ∧
        (executeTool o "read_file_lines".data inp root fs).text =
          joinWith "\n".data
            ((((pySplitlines content).drop (inp.start_line.toNat - 1)).enumFrom
              inp.start_line.toNat).map (fun e => natText e.1 ++ ": ".data ++ e.2)))) := by
  have hdisp : ∀ fs1 : FS, executeTool o "read_file_lines".data inp root fs1 =
      renderHandlerOut "read_file_lines".data (execReadFileLines o inp root fs1) :=
    fun fs1 => executeTool_eq_some o "read_file_lines".data inp root fs1 execReadFileLines
      (show handlerFor "read_file_lines".data = some execReadFileLines from rfl)
  refine ⟨fun hlt => ?_, fun hlt target c1 c2 hres => ?_, fun hs1 => ?_,
    fun target content hres hfile h1 h2 => ⟨fun hbig => ?_, fun hle hclamp => ?_⟩⟩
  · rw [hdisp fs]
    unfold execReadFileLines
    cases hres : resolveSafePath root inp.path with
    | error m => exact ⟨rfl, rfl⟩
    | ok target =>
      dsimp only
      repeat' split
      all_goals first | exact ⟨rfl, rfl⟩ | omega
  · have key : ∀ c : Text,
        (executeTool o "read_file_lines".data inp root (fs.withFile target c)).text =
          (if inp.start_line < 1 then "Error: start_line must be >= 1.".data
           else "Error: end_line must be >= start_line.".data) := by
      intro c
      have hlook : lookupFile (fs.withFile target c).files target = some c :=
        lookupFile_setFileEntry_self target c fs.files
      have hex := FS.existsPath_of_lookup _ target c hlook
      have hif := FS.isFile_of_lookup _ target c hlook
      rw [hdisp (fs.withFile target c)]
      unfold execReadFileLines
      rw [hres]
      by_cases hs1 : inp.start_line < 1
      · simp [hex, hif, hs1, renderHandlerOut]
      · simp [hex, hif, hs1, hlt, renderHandlerOut]
    rw [key c1, key c2]
  · rw [hdisp fs]
    unfold execReadFileLines
    cases hres : resolveSafePath root inp.path with
    | error m => exact ⟨rfl, rfl⟩
    | ok target =>
      dsimp only
      repeat' split
      all_goals first | exact ⟨rfl, rfl⟩ | omega
  · have hex := FS.existsPath_of_lookup fs target content hfile
    have hif := FS.isFile_of_lookup fs target content hfile
    rw [hdisp fs]
    unfold execReadFileLines
    rw [hres]
    simp [hex, hif, hfile, renderHandlerOut,
      show ¬ (inp.start_line < 1) from by omega,
      show ¬ (inp.end_line < inp.start_line) from by omega,
      show inp.start_line > ((pySplitlines content).length : Int) from by omega]
  · have hex := FS.existsPath_of_lookup fs target content hfile
    have hif := FS.isFile_of_lookup fs target content hfile
    have hTake : ((pySplitlines content).drop (inp.start_line.toNat - 1)).take
        ((min inp.end_line ((pySplitlines content).length : Int)).toNat -
          (inp.start_line.toNat - 1)) =
        (pySplitlines content).drop (inp.start_line.toNat - 1) := by
      have hN : (min inp.end_line ((pySplitlines content).length : Int)).toNat =
          (pySplitlines content).length := by
        rw [min_eq_right hclamp]
        omega
      rw [hN]
      exact List.take_of_length_le (by rw [List.length_drop])
    rw [hdisp fs]
    unfold execReadFileLines
    rw [hres]
    simp only [hex, hif, hfile, Option.getD_some, Bool.true_eq_false, if_false,
      show ¬ (inp.start_line < 1) from by omega, if_neg,
      show ¬ (inp.end_line < inp.start_line) from by omega,
      show ¬ (inp.start_line > ((pySplitlines content).length : Int)) from by omega]
    rw [hTake]
    exact ⟨rfl, rfl⟩

/-- Witness for the amended C5: reading lines 2..9 of a 3-line file clamps
to lines 2..3 and succeeds. -/
theorem c5_read_file_lines_ranges_witness :
    resolveSafePath ["repo".data] ["f".data] = Except.ok ["repo".data, "f".data] ∧
    lookupFile (FS.mk [(["repo".data, "f".data], "a\nb\nc".data)] []).files
      ["repo".data, "f".data] = some "a\nb\nc".data ∧
    ((executeTool oTriv "read_file_lines".data
        ({ path := ["f".data], start_line := 2, end_line := 9 } : ToolInput)
        ["repo".data] (FS.mk [(["repo".data, "f".data], "a\nb\nc".data)] [])).isErr = false ∧
      (executeTool oTriv "read_file_lines".data
        ({ path := ["f".data], start_line := 2, end_line := 9 } : ToolInput)
        ["repo".data] (FS.mk [(["repo".data, "f".data], "a\nb\nc".data)] [])).text =
        joinWith "\n".data
          ((((pySplitlines "a\nb\nc".data).drop
            (((2 : Int)).toNat - 1)).enumFrom ((2 : Int)).toNat).map
            (fun e => natText e.1 ++ ": ".data ++ e.2))) :=
  ⟨by decide, by decide,
   ((c5_read_file_lines_ranges oTriv
       ({ path := ["f".data], start_line := 2, end_line := 9 } : ToolInput)
       ["repo".data] (FS.mk [(["repo".data, "f".data], "a\nb\nc".data)] [])).2.2.2
     ["repo".data, "f".data] "a\nb\nc".data (by decide) (by decide) (by decide)
     (by decide)).2 (by decide) (by decide)⟩

/-! ### Orchestrator helper lemmas -/

theorem changeEntry_nil_of_not_write (name : Text) (inp : ToolInput)
    (h : name ∉ WRITE_TOOLS) : changeEntry name inp = [] := by
  simp only [WRITE_TOOLS, List.mem_cons, List.not_mem_nil, or_false, not_or] at h
  obtain ⟨h1, h2, h3, h4, h5⟩ := h
  unfold changeEntry
  rw [if_neg (by simp [h1, h2, h3]), if_neg h4, if_neg h5]

theorem changeStep_eq (o : Oracle) (root : FsPath) (name : Text) (inp : ToolInput) (fs : FS)
    (changed : List Text) :
    (if ("Error".data.isPrefixOf (executeTool o name inp root fs).text) = false
     then changed ++ changeEntry name inp else changed) =
    changed ++ (if (executeTool o name inp root fs).isErr = false ∧ name ∈ WRITE_TOOLS
                then changeEntry name inp else []) := by
  by_cases hw : name ∈ WRITE_TOOLS
  · rw [executeTool_prefix_eq_isErr o name inp root fs hw]
    by_cases hE : (executeTool o name inp root fs).isErr = true
    · simp [hE]
    · simp only [Bool.not_eq_true] at hE
      simp [hE, hw]
  · have hnil := changeEntry_nil_of_not_write name inp hw
    simp [hnil, hw]

theorem processToolCalls_spec (o : Oracle) (root : FsPath) :
    ∀ (blocks : List ContentBlock) (fs : FS) (changed : List Text),
      processToolCalls o root blocks fs changed =
        ((roundResultsSpec o root (toolUsesOf blocks) fs).1,
         (roundResultsSpec o root (toolUsesOf blocks) fs).2,
         changed ++ changeRecordsSpec o root (toolUsesOf blocks) fs) := by
  intro blocks
  induction blocks with
  | nil =>
    intro fs changed
    simp [processToolCalls, toolUsesOf, roundResultsSpec, changeRecordsSpec]
  | cons b rest ih =>
    intro fs changed
    cases b with
    | text s =>
      simp only [processToolCalls, toolUsesOf, List.filterMap_cons]
      exact ih fs changed
    | toolResult id t =>
      simp only [processToolCalls, toolUsesOf, List.filterMap_cons]
      exact ih fs changed
    | toolUse id name inp =>
      simp only [processToolCalls, toolUsesOf, List.filterMap_cons]
      rw [ih]
      simp only [roundResultsSpec, changeRecordsSpec]
      rw [changeStep_eq]
      simp [List.append_assoc, toolUsesOf]

theorem roundResultsSpec_ids (o : Oracle) (root : FsPath) :
    ∀ (calls : List (Text × Text × ToolInput)) (fs : FS),
      (roundResultsSpec o root calls fs).1.length = calls.length := by
  intro calls
  induction calls with
  | nil => intro fs; rfl
  | cons c rest ih =>
    intro fs
    simp [roundResultsSpec, ih]

theorem runAgentLoop_tool_use_step (o : Oracle) (root : FsPath) (ep : Endpoint) (fuel : Nat)
    (msgs : List Message) (fs : FS) (changed : List Text) (used : Nat)
    (h : (ep msgs).stopReason = "tool_use".data) :
    runAgentLoop o root ep (fuel + 1) msgs fs changed used =
      runAgentLoop o root ep fuel
        ((msgs ++ [(ep msgs).message]) ++
          [Message.mk "user".data
            (processToolCalls o root (ep msgs).message.content fs changed).1])
        (processToolCalls o root (ep msgs).message.content fs changed).2.1
        (processToolCalls o root (ep msgs).message.content fs changed).2.2 (used + 1) := by
  conv_lhs => rw [runAgentLoop]
  rw [if_neg (by rw [h]; decide), if_pos h]

theorem runAgentLoop_exhausts (o : Oracle) (root : FsPath) (ep : Endpoint)
    (h : ∀ msgs, (ep msgs).stopReason = "tool_use".data) :
    ∀ (fuel : Nat) (msgs : List Message) (fs : FS) (changed : List Text) (used : Nat),
      (runAgentLoop o root ep fuel msgs fs changed used).summary = EXHAUSTION_SUMMARY ∧
      (runAgentLoop o root ep fuel msgs fs changed used).rounds = used + fuel ∧
      (runAgentLoop o root ep fuel msgs fs changed used).filesChanged =
        capChangesSpec o root ep fuel msgs fs changed := by
  intro fuel
  induction fuel with
  | zero =>
    intro msgs fs changed used
    exact ⟨rfl, rfl, rfl⟩
  | succ n ih =>
    intro msgs fs changed used
    rw [runAgentLoop_tool_use_step o root ep n msgs fs changed used (h msgs)]
    refine ⟨(ih _ _ _ _).1, ?_, ?_⟩
    · rw [(ih _ _ _ _).2.1]
      omega
    · rw [(ih _ _ _ _).2.2]
      show _ = capChangesSpec o root ep (n + 1) msgs fs changed
      simp only [capChangesSpec, List.append_assoc, List.singleton_append]

/-- Claim C6: with an endpoint that always requests tool use, the
orchestrator performs exactly `MAX_AGENT_ITERATIONS` (30) rounds, then
returns — as a normal value — the fixed exhaustion warning summary together
with the ChangeRecords accumulated from successful write-class calls along
the way. -/
theorem c6_agent_cap_exhaustion (o : Oracle) (root : FsPath) (ep : Endpoint)
    (userPrompt : Text) (fs : FS)
    (h : ∀ msgs, (ep msgs).stopReason = "tool_use".data) :
    (runAgent o root ep userPrompt fs).summary = EXHAUSTION_SUMMARY ∧
    (runAgent o root ep userPrompt fs).rounds = MAX_AGENT_ITERATIONS ∧
    (runAgent o root ep userPrompt fs).filesChanged =
      capChangesSpec o root ep MAX_AGENT_ITERATIONS
        [Message.mk "user".data [ContentBlock.text userPrompt]] fs [] := by
  have hx := runAgentLoop_exhausts o root ep h MAX_AGENT_ITERATIONS
    [Message.mk "user".data [ContentBlock.text userPrompt]] fs [] 0
  exact ⟨hx.1, hx.2.1.trans (Nat.zero_add _), hx.2.2⟩

/-- Witness for C6 at a concrete always-tool-use endpoint. -/
theorem c6_agent_cap_exhaustion_witness :
    (runAgent oTriv ["repo".data] epAlwaysTool "go".data fsEmpty).summary =
      EXHAUSTION_SUMMARY ∧
    (runAgent oTriv ["repo".data] epAlwaysTool "go".data fsEmpty).rounds =
      MAX_AGENT_ITERATIONS :=
  ⟨(c6_agent_cap_exhaustion oTriv ["repo".data] epAlwaysTool "go".data fsEmpty
      (fun _ => rfl)).1,
   (c6_agent_cap_exhaustion oTriv ["repo".data] epAlwaysTool "go".data fsEmpty
      (fun _ => rfl)).2.1⟩

/-- Claim C7 counterexample: on an end-of-turn reply with the two text
blocks `a` and `b` the summary is the *newline-joined* text `a\nb`, not the
plain concatenation `ab` the claim states. -/
theorem c7_summary_concat_counterexample :
    (runAgent oTriv ["repo".data] epTwoTexts "p".data fsEmpty).summary = "a\nb".data ∧
    (runAgent oTriv ["repo".data] epTwoTexts "p".data fsEmpty).summary ≠
      "a".data ++ "b".data := by
  refine ⟨by decide, by decide⟩

/-- Claim C7 (amended): on an assistant reply carrying the end-of-turn stop
signal the orchestrator terminates that round with a summary equal to the
text blocks of the reply joined by newlines, in order; if there are no text
blocks the summary is the fixed placeholder.  ChangeRecords and filesystem
are returned unchanged. -/
theorem c7_end_turn_summary (o : Oracle) (root : FsPath) (ep : Endpoint) (fuel : Nat)
    (msgs : List Message) (fs : FS) (changed : List Text) (used : Nat) (msg : Message)
    (h : ep msgs = Reply.mk msg "end_turn".data) :
    runAgentLoop o root ep (fuel + 1) msgs fs changed used =
      AgentOut.mk
        (if textBlocksOf msg = [] then NO_SUMMARY_PLACEHOLDER
         else joinWith "\n".data (textBlocksOf msg)) changed fs (used + 1) := by
  conv_lhs => rw [runAgentLoop]
  rw [h]
  rfl

/-- Witness for the amended C7 at a concrete end-of-turn endpoint. -/
theorem c7_end_turn_summary_witness :
    runAgentLoop oTriv ["repo".data] epDone (0 + 1) [] fsEmpty [] 0 =
      AgentOut.mk
        (if textBlocksOf (Message.mk "assistant".data [ContentBlock.text "done".data]) = []
         then NO_SUMMARY_PLACEHOLDER
         else joinWith "\n".data
           (textBlocksOf (Message.mk "assistant".data [ContentBlock.text "done".data])))
        [] fsEmpty (0 + 1) :=
  c7_end_turn_summary oTriv ["repo".data] epDone 0 [] fsEmpty [] 0
    (Message.mk "assistant".data [ContentBlock.text "done".data]) rfl

/-- Claim C8: in a tool-use round every ToolUse block is executed
sequentially in order with the filesystem threaded through; each yields
exactly one ToolResult echoing its id; the `files_changed` log is extended
exactly by the records of non-error write-class calls (classified by tool
identity); error results never abort the round; and all ToolResults are
appended to the conversation as one new user message. -/
theorem c8_tool_round_bookkeeping (o : Oracle) (root : FsPath) (blocks : List ContentBlock)
    (fs : FS) (changed : List Text) (ep : Endpoint) (fuel : Nat) (msgs : List Message)
    (used : Nat)
    (h : ep msgs = Reply.mk (Message.mk "assistant".data blocks) "tool_use".data) :
    (processToolCalls o root blocks fs changed).1 =
      (roundResultsSpec o root (toolUsesOf blocks) fs).1 ∧
    (processToolCalls o root blocks fs changed).1.length = (toolUsesOf blocks).length ∧
    (processToolCalls o root blocks fs changed).2.2 =
      changed ++ changeRecordsSpec o root (toolUsesOf blocks) fs ∧
    runAgentLoop o root ep (fuel + 1) msgs fs changed used =
      runAgentLoop o root ep fuel
        ((msgs ++ [Message.mk "assistant".data blocks]) ++
          [Message.mk "user".data (processToolCalls o root blocks fs changed).1])
        (processToolCalls o root blocks fs changed).2.1
        (processToolCalls o root blocks fs changed).2.2 (used + 1) := by
  have hspec := processToolCalls_spec o root blocks fs changed
  refine ⟨?_, ?_, ?_, ?_⟩
  · rw [hspec]
  · rw [hspec]
    exact roundResultsSpec_ids o root (toolUsesOf blocks) fs
  · rw [hspec]
  · have hstep := runAgentLoop_tool_use_step o root ep fuel msgs fs changed used
      (by rw [h])
    rw [h] at hstep
    exact hstep

/-- Witness for C8 at a concrete one-call round. -/
theorem c8_tool_round_bookkeeping_witness :
    (processToolCalls oTriv ["repo".data]
        [ContentBlock.text "x".data,
         ContentBlock.toolUse "t1".data "write_file".data
           ({ path := ["f".data], content := "c".data } : ToolInput)] fsEmpty []).1 =
      (roundResultsSpec oTriv ["repo".data]
        (toolUsesOf
          [ContentBlock.text "x".data,
           ContentBlock.toolUse "t1".data "write_file".data
             ({ path := ["f".data], content := "c".data } : ToolInput)]) fsEmpty).1 ∧
    (processToolCalls oTriv ["repo".data]
        [ContentBlock.text "x".data,
         ContentBlock.toolUse "t1".data "write_file".data
           ({ path := ["f".data], content := "c".data } : ToolInput)] fsEmpty []).1.length =
      (toolUsesOf
        [ContentBlock.text "x".data,
         ContentBlock.toolUse "t1".data "write_file".data
           ({ path := ["f".data], content := "c".data } : ToolInput)]).length ∧
    (processToolCalls oTriv ["repo".data]
        [ContentBlock.text "x".data,
         ContentBlock.toolUse "t1".data "write_file".data
           ({ path := ["f".data], content := "c".data } : ToolInput)] fsEmpty []).2.2 =
      [] ++ changeRecordsSpec oTriv ["repo".data]
        (toolUsesOf
          [ContentBlock.text "x".data,
           ContentBlock.toolUse "t1".data "write_file".data
             ({ path := ["f".data], content := "c".data } : ToolInput)]) fsEmpty ∧
    runAgentLoop oTriv ["repo".data] epOneWrite (3 + 1) [] fsEmpty [] 0 =
      runAgentLoop oTriv ["repo".data] epOneWrite 3
        (([] ++ [Message.mk "assistant".data
            [ContentBlock.text "x".data,
             ContentBlock.toolUse "t1".data "write_file".data
               ({ path := ["f".data], content := "c".data } : ToolInput)]]) ++
          [Message.mk "user".data
            (processToolCalls oTriv ["repo".data]
              [ContentBlock.text "x".data,
               ContentBlock.toolUse "t1".data "write_file".data
                 ({ path := ["f".data], content := "c".data } : ToolInput)] fsEmpty []).1])
        (processToolCalls oTriv ["repo".data]
          [ContentBlock.text "x".data,
           ContentBlock.toolUse "t1".data "write_file".data
             ({ path := ["f".data], content := "c".data } : ToolInput)] fsEmpty []).2.1
        (processToolCalls oTriv ["repo".data]
          [ContentBlock.text "x".data,
           ContentBlock.toolUse "t1".data "write_file".data
             ({ path := ["f".data], content := "c".data } : ToolInput)] fsEmpty []).2.2
        (0 + 1) :=
  c8_tool_round_bookkeeping oTriv ["repo".data]
    [ContentBlock.text "x".data,
     ContentBlock.toolUse "t1".data "write_file".data
       ({ path := ["f".data], content := "c".data } : ToolInput)] fsEmpty [] epOneWrite 3 [] 0
    rfl
